import Mathlib

/-!
# Win32-style wait objects on POSIX (xenia `threading_posix.cc`)

A shallow embedding of the waitable objects of `src/xenia/base/threading_posix.cc`
(`PosixConditionBase` with `Wait` and `WaitMultiple`, `PosixCondition<Event>`,
`PosixCondition<Semaphore>`, `PosixCondition<Mutant>`, `PosixCondition<Timer>`,
`PosixCondition<Thread>`, their public wrappers, the functions `Wait`,
`SignalAndWait` and `WaitMultiple`, the signal purposes and the user callbacks)
together with the properties the specification states about them.  The last
sections embed the time conversions and `CreateFolder` of `clock_posix.cc` and
`filesystem_posix.cc`, and `decode_fat_timestamp` and the block arithmetic of
`vfs/devices/stfs_container_device.cc`.

Modelling conventions.

* `uint32_t` fields are natural numbers kept below `2^32`; every C++ operator on
  them is written with an explicit `% 2^32`.
* `int` arguments are integers; a conversion between `int` and `uint32_t` is the
  two's complement one (`toUInt32`, `toInt32`).
* An `int*` out-parameter is an `Option Int` cell passed in and returned:
  `none` is `nullptr`, `some v` is a cell currently holding `v`.
* `std::this_thread::get_id()` is an explicit argument (a natural number); a
  default-constructed `std::thread::id` is `none`.
* A wait is evaluated for a caller that is alone: no other thread changes the
  object while the caller is blocked.  A wait that would block forever is `none`.
* A pointer to a `PosixConditionBase` is an address (a natural number) into a
  heap `Nat → PosixConditionBase`, so that one object can be listed twice.
* The result of a system call (`timer_create`, `timer_settime`, `timer_delete`,
  `pthread_kill`) is an argument of the method that makes it.
* A `timer_t` is the number the system gave; `0` is the value of `nullptr`, and
  `timer_create` may give it.  The POSIX timers that exist for a timer object
  are kept next to its members, so that a timer and the handle to it are two
  things.
* A thread and its `std::thread::id` are two things: where threads are told
  apart, `get_id` gives the id of each, and need not be injective.
* The user-callback signals that reach a thread during a sleep or a public wait
  are an argument of it, and what `signal_handler` did on each is part of the
  result.
-/

namespace xe.threading

/-! ## Machine integers -/

/-- The conversion `static_cast<uint32_t>(i)` of an `int`. -/
def toUInt32 (i : Int) : Nat := (i % 2 ^ 32).toNat

/-- The conversion of a `uint32_t` to `int` (as in `*out_previous_count = count_`). -/
def toInt32 (u : Nat) : Int :=
  if u % 2 ^ 32 < 2 ^ 31 then ((u % 2 ^ 32 : Nat) : Int) else ((u % 2 ^ 32 : Nat) : Int) - 2 ^ 32

/-- The values an `int` can hold. -/
@[reducible]
def isInt32 (i : Int) : Prop := -(2 ^ 31) ≤ i ∧ i < 2 ^ 31

/-! ## Wait results and timeouts -/

/-- Modelled from the spec: the result enumeration of `threading.h` (the header
is not part of the sources); the three results the waits of this file return. -/
inductive WaitResult where
  | kSuccess
  | kTimeout
  | kFailed
  deriving DecidableEq, Repr

/-- The value `std::chrono::milliseconds::max()`, the infinite timeout. -/
def milliseconds_max : Int := 2 ^ 63 - 1

/-! ## `PosixConditionBase` -/

namespace PosixConditionBase

/-- The method `PosixConditionBase::Wait(timeout)` over an object state `σ` with
the virtual methods `signaled` and `post_execution` given.  When the predicate
holds the wait is executed at once; otherwise an infinite wait blocks (`none`)
and a finite one runs out, `wait_for` returning the predicate, which is false. -/
def Wait {σ : Type} (signaled : σ → Bool) (post_execution : σ → σ)
    (timeout : Int) (s : σ) : Option (WaitResult × σ) :=
  if signaled s then
    some (WaitResult.kSuccess, post_execution s)
  else if timeout = milliseconds_max then
    none
  else
    some (WaitResult.kTimeout, s)

end PosixConditionBase

/-! ## Semaphore -/

/-- The fields of `PosixCondition<Semaphore>`. -/
structure PosixConditionSemaphore where
  count_ : Nat
  maximum_count_ : Nat
  deriving DecidableEq, Repr

namespace PosixConditionSemaphore

/-- The constructor `PosixCondition(uint32_t initial_count, uint32_t maximum_count)`. -/
def mk_ (initial_count maximum_count : Nat) : PosixConditionSemaphore :=
  { count_ := initial_count % 2 ^ 32, maximum_count_ := maximum_count % 2 ^ 32 }

/-- The method `signaled()`: `count_ > 0`. -/
def signaled (s : PosixConditionSemaphore) : Bool := decide (0 < s.count_)

/-- The method `post_execution()`: `count_--` on a `uint32_t`. -/
def post_execution (s : PosixConditionSemaphore) : PosixConditionSemaphore :=
  { s with count_ := (s.count_ + 2 ^ 32 - 1) % 2 ^ 32 }

/-- The method `Release(uint32_t release_count, int* out_previous_count)`.
The guard `maximum_count_ - count_ >= release_count` is an unsigned subtraction. -/
def Release (release_count : Nat) (out_previous_count : Option Int)
    (s : PosixConditionSemaphore) : Bool × Option Int × PosixConditionSemaphore :=
  if release_count ≤ (s.maximum_count_ + 2 ^ 32 - s.count_) % 2 ^ 32 then
    (true, out_previous_count.map (fun _ => toInt32 s.count_),
      { s with count_ := (s.count_ + release_count) % 2 ^ 32 })
  else
    (false, out_previous_count, s)

/-- The wait on a semaphore: `PosixConditionBase::Wait` with the semaphore's
`signaled` and `post_execution`. -/
def Wait (timeout : Int) (s : PosixConditionSemaphore) :
    Option (WaitResult × PosixConditionSemaphore) :=
  PosixConditionBase.Wait signaled post_execution timeout s

end PosixConditionSemaphore

namespace PosixSemaphore

/-- The constructor `PosixSemaphore(int initial_count, int maximum_count)`: both
arguments are cast to `uint32_t`, nothing is checked. -/
def mk_ (initial_count maximum_count : Int) : PosixConditionSemaphore :=
  PosixConditionSemaphore.mk_ (toUInt32 initial_count) (toUInt32 maximum_count)

/-- The method `PosixSemaphore::Release(int release_count, int* out_previous_count)`. -/
def Release (release_count : Int) (out_previous_count : Option Int)
    (s : PosixConditionSemaphore) : Bool × Option Int × PosixConditionSemaphore :=
  if release_count < 1 then
    (false, out_previous_count, s)
  else
    PosixConditionSemaphore.Release (toUInt32 release_count) out_previous_count s

end PosixSemaphore

namespace Semaphore

/-- The factory `Semaphore::Create(int initial_count, int maximum_count)`:
`std::make_unique<PosixSemaphore>`, which never yields a null pointer
(`none` would be the null pointer). -/
def Create (initial_count maximum_count : Int) : Option PosixConditionSemaphore :=
  some (PosixSemaphore.mk_ initial_count maximum_count)

end Semaphore

/-- The invariant of the specification, `0 ≤ count ≤ maximum_count`, read on
the stored `uint32_t` fields. -/
@[reducible]
def PosixConditionSemaphore.invariant (s : PosixConditionSemaphore) : Prop :=
  s.count_ ≤ s.maximum_count_ ∧ s.maximum_count_ < 2 ^ 32

/-- The same invariant read on the `int` values of the public interface
(`Semaphore::Create(int, int)`, `int* out_previous_count`): a stored maximum of
`2^31` or more is a negative `int`. -/
@[reducible]
def PosixConditionSemaphore.invariantInt (s : PosixConditionSemaphore) : Prop :=
  s.count_ ≤ s.maximum_count_ ∧ s.maximum_count_ < 2 ^ 31

/-! ## Mutant -/

/-- The fields of `PosixCondition<Mutant>`; `owner_ = none` is the
default-constructed `std::thread::id`, which is the id of no thread. -/
structure PosixConditionMutant where
  count_ : Nat
  owner_ : Option Nat
  deriving DecidableEq, Repr

namespace PosixConditionMutant

/-- The constructor `PosixCondition(bool initial_owner)`, run by `this_thread`. -/
def mk_ (initial_owner : Bool) (this_thread : Nat) : PosixConditionMutant :=
  if initial_owner then
    { count_ := 1, owner_ := some this_thread }
  else
    { count_ := 0, owner_ := none }

/-- The method `Release()`, called by `this_thread`. -/
def Release (this_thread : Nat) (s : PosixConditionMutant) : Bool × PosixConditionMutant :=
  if s.owner_ = some this_thread ∧ 0 < s.count_ then
    (true, { s with count_ := (s.count_ + 2 ^ 32 - 1) % 2 ^ 32 })
  else
    (false, s)

/-- The method `signaled()`, evaluated by `this_thread`. -/
def signaled (this_thread : Nat) (s : PosixConditionMutant) : Bool :=
  decide (s.count_ = 0) || decide (s.owner_ = some this_thread)

/-- The method `post_execution()`, run by `this_thread`: `count_++` on a `uint32_t`. -/
def post_execution (this_thread : Nat) (s : PosixConditionMutant) : PosixConditionMutant :=
  { count_ := (s.count_ + 1) % 2 ^ 32, owner_ := some this_thread }

/-- The wait of `this_thread` on a mutant. -/
def Wait (this_thread : Nat) (timeout : Int) (s : PosixConditionMutant) :
    Option (WaitResult × PosixConditionMutant) :=
  PosixConditionBase.Wait (signaled this_thread) (post_execution this_thread) timeout s

/-- The state after `k` consecutive waits of `this_thread`, each of which has
to return `kSuccess`; `none` when one of them does not. -/
def WaitTimes (this_thread : Nat) (timeout : Int) :
    Nat → PosixConditionMutant → Option PosixConditionMutant
  | 0, s => some s
  | k + 1, s =>
    match Wait this_thread timeout s with
    | some (WaitResult.kSuccess, s') => WaitTimes this_thread timeout k s'
    | _ => none

/-- The state after `k` consecutive calls of `Release()` by `this_thread`. -/
def ReleaseTimes (this_thread : Nat) : Nat → PosixConditionMutant → PosixConditionMutant
  | 0, s => s
  | k + 1, s => ReleaseTimes this_thread k (Release this_thread s).2

end PosixConditionMutant

/-- One operation of a thread on a mutant: a wait (`Wait`, or any façade
operation that ends in `PosixConditionBase::Wait`) or a `Release()`.  `thread`
names the thread that performs it. -/
inductive MutantOp where
  | wait (thread : Nat) (timeout : Int)
  | release (thread : Nat)
  deriving DecidableEq, Repr

namespace MutantOp

/-- The mutant after one operation; a wait that blocks leaves it as it is.
`get_id thread` is what `std::this_thread::get_id()` gives on that thread: two
threads that live at the same time have different ids, and a thread started
after another one has ended may get the id of that one again, so `get_id` need
not be injective. -/
def step (get_id : Nat → Nat) (s : PosixConditionMutant) : MutantOp → PosixConditionMutant
  | wait t timeout =>
    match PosixConditionMutant.Wait (get_id t) timeout s with
    | some (_, s') => s'
    | none => s
  | release t => (PosixConditionMutant.Release (get_id t) s).2

/-- The mutant after a sequence of operations. -/
def run (get_id : Nat → Nat) (s : PosixConditionMutant) : List MutantOp → PosixConditionMutant
  | [] => s
  | op :: ops => run get_id (step get_id s op) ops

/-- Whether the operation is a wait of thread `t` that returns `kSuccess` on `s`. -/
def isSuccessfulWaitOf (get_id : Nat → Nat) (t : Nat) (s : PosixConditionMutant) :
    MutantOp → Bool
  | wait u timeout =>
    decide (u = t) &&
      (match PosixConditionMutant.Wait (get_id u) timeout s with
       | some (WaitResult.kSuccess, _) => true
       | _ => false)
  | release _ => false

/-- Whether thread `t` completes a successful wait somewhere in the sequence
of operations run from `s`. -/
def hasSuccessfulWaitOf (get_id : Nat → Nat) (t : Nat) (s : PosixConditionMutant) :
    List MutantOp → Bool
  | [] => false
  | op :: ops =>
    isSuccessfulWaitOf get_id t s op || hasSuccessfulWaitOf get_id t (step get_id s op) ops

end MutantOp

/-! ## Event -/

/-- The fields of `PosixCondition<Event>`. -/
structure PosixConditionEvent where
  signal_ : Bool
  manual_reset_ : Bool
  deriving DecidableEq, Repr

namespace PosixConditionEvent

/-- The constructor `PosixCondition(bool manual_reset, bool initial_state)`. -/
def mk_ (manual_reset initial_state : Bool) : PosixConditionEvent :=
  { signal_ := initial_state, manual_reset_ := manual_reset }

/-- The method `Signal()`: sets the signal and returns `true`. -/
def Signal (s : PosixConditionEvent) : Bool × PosixConditionEvent :=
  (true, { s with signal_ := true })

/-- The method `Reset()`. -/
def Reset (s : PosixConditionEvent) : PosixConditionEvent :=
  { s with signal_ := false }

/-- The method `signaled()`. -/
def signaled (s : PosixConditionEvent) : Bool := s.signal_

/-- The method `post_execution()`. -/
def post_execution (s : PosixConditionEvent) : PosixConditionEvent :=
  if !s.manual_reset_ then { s with signal_ := false } else s

/-- The wait on an event. -/
def Wait (timeout : Int) (s : PosixConditionEvent) :
    Option (WaitResult × PosixConditionEvent) :=
  PosixConditionBase.Wait signaled post_execution timeout s

/-- The state after `k` consecutive waits, each of which has to return
`kSuccess`; `none` when one of them does not. -/
def WaitTimes (timeout : Int) : Nat → PosixConditionEvent → Option PosixConditionEvent
  | 0, s => some s
  | k + 1, s =>
    match Wait timeout s with
    | some (WaitResult.kSuccess, s') => WaitTimes timeout k s'
    | _ => none

end PosixConditionEvent

namespace PosixEvent

/-- The method `PosixEvent::Set()`: `handle_.Signal()`, result dropped. -/
def Set (s : PosixConditionEvent) : PosixConditionEvent := (PosixConditionEvent.Signal s).2

/-- The method `PosixEvent::Reset()`. -/
def Reset (s : PosixConditionEvent) : PosixConditionEvent := PosixConditionEvent.Reset s

/-- The state after `k` calls of `Set()`. -/
def SetTimes : Nat → PosixConditionEvent → PosixConditionEvent
  | 0, s => s
  | k + 1, s => SetTimes k (Set s)

end PosixEvent

namespace Event

/-- The factory `Event::CreateManualResetEvent(bool initial_state)`. -/
def CreateManualResetEvent (initial_state : Bool) : PosixConditionEvent :=
  PosixConditionEvent.mk_ true initial_state

/-- The factory `Event::CreateAutoResetEvent(bool initial_state)`. -/
def CreateAutoResetEvent (initial_state : Bool) : PosixConditionEvent :=
  PosixConditionEvent.mk_ false initial_state

end Event

namespace Mutant

/-- The factory `Mutant::Create(bool initial_owner)`, called by `this_thread`. -/
def Create (initial_owner : Bool) (this_thread : Nat) : PosixConditionMutant :=
  PosixConditionMutant.mk_ initial_owner this_thread

end Mutant

/-! ## Timer -/

/-- A POSIX timer as the system keeps it: the `timer_t` that `timer_create`
gave for it and the schedule last programmed with `timer_settime`, in
nanoseconds (`it_value`, `it_interval`). -/
structure OsTimer where
  timerid : Nat
  it_value : Int
  it_interval : Int
  deriving DecidableEq, Repr

/-- The fields of `PosixCondition<Timer>`.  A `std::function<void()>` is the
name of the callable it holds, `none` when it is empty.  The member `timer_` is
the `timer_t` as a number, the one `timer_create` wrote, and `0` is `nullptr`:
`timer_create` may give `0` for a timer that exists.  The last field is not a
member: it lists the POSIX timers of the process that were created with
`sigev_value.sival_ptr = this` and have not been deleted. -/
structure PosixConditionTimer where
  callback_ : Option Nat
  timer_ : Nat
  signal_ : Bool
  manual_reset_ : Bool
  os_timers : List OsTimer
  deriving DecidableEq, Repr

namespace PosixConditionTimer

/-- The constructor `PosixCondition(bool manual_reset)`. -/
def mk_ (manual_reset : Bool) : PosixConditionTimer :=
  { callback_ := none, timer_ := 0, signal_ := false, manual_reset_ := manual_reset,
    os_timers := [] }

/-- The system call `timer_settime(timer_, 0, &its, nullptr)` as `Set` makes
it, with the test `== 0` on its result.  As POSIX documents it, the call fails
(`EINVAL`) on a `timer_t` that names no timer; `timer_settime_ok` says whether
it succeeds on one that does. -/
def timer_settime (due_time : Int) (period : Int) (timer_settime_ok : Bool)
    (t : PosixConditionTimer) : Bool × PosixConditionTimer :=
  if timer_settime_ok && t.os_timers.any (fun os => decide (os.timerid = t.timer_)) then
    (true,
      { t with os_timers := t.os_timers.map (fun os =>
          if os.timerid = t.timer_ then
            { os with it_value := due_time, it_interval := period * 1000000 }
          else os) })
  else (false, t)

/-- The method `Set(due_time, period, opt_callback)`; `timer_create_result` is
`none` when `timer_create` returns `-1` and otherwise the `timer_t` it writes to
`timer_`, and `timer_settime_ok` says whether `timer_settime` succeeds.  The
callback is stored and the signal cleared before either call; `timer_create` is
called whenever `timer_` compares equal to `nullptr`. -/
def Set (due_time : Int) (period : Int) (opt_callback : Option Nat)
    (timer_create_result : Option Nat) (timer_settime_ok : Bool) (t : PosixConditionTimer) :
    Bool × PosixConditionTimer :=
  let t1 : PosixConditionTimer := { t with callback_ := opt_callback, signal_ := false }
  if t1.timer_ = 0 then
    match timer_create_result with
    | none => (false, t1)
    | some timerid =>
      timer_settime due_time period timer_settime_ok
        { t1 with
          timer_ := timerid,
          os_timers := { timerid := timerid, it_value := 0, it_interval := 0 } :: t1.os_timers }
  else
    timer_settime due_time period timer_settime_ok t1

/-- The method `CompletionRoutine()`: sets the signal and calls the stored
callback, if there is one; the second component is the callback called.  The
stored callback is left in place. -/
def CompletionRoutine (t : PosixConditionTimer) : PosixConditionTimer × Option Nat :=
  ({ t with signal_ := true }, t.callback_)

/-- The method `Signal()`: `CompletionRoutine()`, then `true`. -/
def Signal (t : PosixConditionTimer) : Bool × PosixConditionTimer :=
  (true, (CompletionRoutine t).1)

/-- One expiry of a timer of the object: the system raises the `kTimer` signal
for an existing POSIX timer only, whatever `timer_` holds, and `signal_handler`
then calls `CompletionRoutine` on the object the signal carries. -/
def Expire (t : PosixConditionTimer) : PosixConditionTimer × Option Nat :=
  match t.os_timers with
  | _ :: _ => CompletionRoutine t
  | [] => (t, none)

/-- The handle names the timers: every POSIX timer of the object has the
`timer_t` that `timer_` holds, and that value is not the one of `nullptr`.  A
timer that has none satisfies it. -/
@[reducible]
def handle_names_timers (t : PosixConditionTimer) : Prop :=
  ∀ os ∈ t.os_timers, os.timerid = t.timer_ ∧ t.timer_ ≠ 0

/-- The method `signaled()`. -/
def signaled (t : PosixConditionTimer) : Bool := t.signal_

/-- The method `post_execution()`. -/
def post_execution (t : PosixConditionTimer) : PosixConditionTimer :=
  if !t.manual_reset_ then { t with signal_ := false } else t

/-- The wait on a timer. -/
def Wait (timeout : Int) (t : PosixConditionTimer) :
    Option (WaitResult × PosixConditionTimer) :=
  PosixConditionBase.Wait signaled post_execution timeout t

/-- The state after `k` consecutive waits, each of which has to return
`kSuccess`; `none` when one of them does not. -/
def WaitTimes (timeout : Int) : Nat → PosixConditionTimer → Option PosixConditionTimer
  | 0, t => some t
  | k + 1, t =>
    match Wait timeout t with
    | some (WaitResult.kSuccess, t1) => WaitTimes timeout k t1
    | _ => none

end PosixConditionTimer

namespace PosixTimer

/-- The method `PosixTimer::SetOnce(due_time, opt_callback)`. -/
def SetOnce (due_time : Int) (opt_callback : Option Nat)
    (timer_create_result : Option Nat) (timer_settime_ok : Bool) (t : PosixConditionTimer) :
    Bool × PosixConditionTimer :=
  PosixConditionTimer.Set due_time 0 opt_callback timer_create_result timer_settime_ok t

end PosixTimer

namespace Timer

/-- The factory `Timer::CreateManualResetTimer()`. -/
def CreateManualResetTimer : PosixConditionTimer := PosixConditionTimer.mk_ true

/-- The factory `Timer::CreateSynchronizationTimer()`. -/
def CreateSynchronizationTimer : PosixConditionTimer := PosixConditionTimer.mk_ false

end Timer

/-! ## Thread -/

/-- The enumeration `State` of `PosixCondition<Thread>`. -/
inductive PosixConditionThread.State where
  | kUninitialized
  | kRunning
  | kSuspended
  | kFinished
  deriving DecidableEq, Repr

/-- The fields of `PosixCondition<Thread>`; `thread_ = 0` is no host thread,
`suspend_count_` is a `uint32_t`. -/
structure PosixConditionThread where
  thread_ : Nat
  signaled_ : Bool
  exit_code_ : Int
  state_ : PosixConditionThread.State
  suspend_count_ : Nat
  user_callback_ : Option Nat
  deriving DecidableEq, Repr

namespace PosixConditionThread

/-- The default constructor `PosixCondition()`. -/
def mk_ : PosixConditionThread :=
  { thread_ := 0, signaled_ := false, exit_code_ := 0, state_ := State.kUninitialized,
    suspend_count_ := 0, user_callback_ := none }

/-- The method `WaitStarted()` returns once the state is not `kUninitialized`;
the value says whether it returns for a caller that is alone. -/
def WaitStarted (t : PosixConditionThread) : Bool :=
  decide (t.state_ ≠ State.kUninitialized)

/-- The start of `ThreadStartRoutine` on the new host thread: the state becomes
`kSuspended` or `kRunning`, and a thread created suspended gets count `1`. -/
def ThreadStartRoutine_begin (create_suspended : Bool) (t : PosixConditionThread) :
    PosixConditionThread :=
  if create_suspended then
    { t with state_ := State.kSuspended, suspend_count_ := 1 }
  else
    { t with state_ := State.kRunning }

/-- The end of `ThreadStartRoutine`, after `start_routine()` has returned. -/
def ThreadStartRoutine_end (t : PosixConditionThread) : PosixConditionThread :=
  { t with state_ := State.kFinished, exit_code_ := 0, signaled_ := true }

/-- The method `Resume(out_previous_suspend_count)`; `none` when `WaitStarted`
does not return. -/
def Resume (out_previous_suspend_count : Option Nat) (t : PosixConditionThread) :
    Option (Bool × Option Nat × PosixConditionThread) :=
  if WaitStarted t then
    if t.state_ ≠ State.kSuspended then
      some (false, out_previous_suspend_count.map (fun _ => 0), t)
    else
      some (true, out_previous_suspend_count.map (fun _ => t.suspend_count_),
        { t with suspend_count_ := (t.suspend_count_ + 2 ^ 32 - 1) % 2 ^ 32 })
  else none

/-- The method `Suspend(out_previous_suspend_count)`; `pthread_kill_result` is
what `pthread_kill` returns; `none` when `WaitStarted` does not return. -/
def Suspend (out_previous_suspend_count : Option Nat) (pthread_kill_result : Int)
    (t : PosixConditionThread) : Option (Bool × Option Nat × PosixConditionThread) :=
  if WaitStarted t then
    some (decide (pthread_kill_result = 0),
      out_previous_suspend_count.map (fun _ => t.suspend_count_),
      { t with state_ := State.kSuspended,
               suspend_count_ := (t.suspend_count_ + 1) % 2 ^ 32 })
  else none

/-- The method `Terminate(exit_code)`. -/
def Terminate (exit_code : Int) (t : PosixConditionThread) : PosixConditionThread :=
  let t1 : PosixConditionThread := { t with state_ := State.kFinished }
  if t1.thread_ = 0 then t1
  else { t1 with exit_code_ := exit_code, signaled_ := true }

/-- The method `WaitSuspended()`, run by the thread itself in the handler of the
suspend signal: it returns once `suspend_count_` is `0` and then sets
`kRunning`; `none` while the thread stays parked. -/
def WaitSuspended (t : PosixConditionThread) : Option PosixConditionThread :=
  if t.suspend_count_ = 0 then some { t with state_ := State.kRunning } else none

/-- The method `signaled()`. -/
def signaled (t : PosixConditionThread) : Bool := t.signaled_

/-- The method `post_execution()`: joins the host thread once. -/
def post_execution (t : PosixConditionThread) : PosixConditionThread :=
  if t.thread_ ≠ 0 then { t with thread_ := 0 } else t

/-- The wait on a thread. -/
def Wait (timeout : Int) (t : PosixConditionThread) :
    Option (WaitResult × PosixConditionThread) :=
  PosixConditionBase.Wait signaled post_execution timeout t

/-- The first `k` calls of `Suspend(&previous)`, the `j`-th of them with
`pthread_kill` returning `pthread_kill_result j`: the previous counts reported,
in order, and the state after the last call. -/
def SuspendTimes (pthread_kill_result : Nat → Int) :
    Nat → PosixConditionThread → Option (List Nat × PosixConditionThread)
  | 0, t => some ([], t)
  | k + 1, t =>
    match SuspendTimes pthread_kill_result k t with
    | some (reported, t1) =>
      match Suspend (some 0) (pthread_kill_result k) t1 with
      | some (_, some previous, t2) => some (reported ++ [previous], t2)
      | _ => none
    | none => none

/-- The first `k` calls of `Resume(&previous)`: the results and previous counts
reported, in order, and the state after the last call. -/
def ResumeTimes : Nat → PosixConditionThread → Option (List (Bool × Nat) × PosixConditionThread)
  | 0, t => some ([], t)
  | k + 1, t =>
    match ResumeTimes k t with
    | some (reported, t1) =>
      match Resume (some 0) t1 with
      | some (result, some previous, t2) => some (reported ++ [(result, previous)], t2)
      | _ => none
    | none => none

/-- The thread `t` in state `kSuspended` with suspend count `n`, its other
fields as they are. -/
def suspendedWith (t : PosixConditionThread) (n : Nat) : PosixConditionThread :=
  { thread_ := t.thread_, signaled_ := t.signaled_, exit_code_ := t.exit_code_,
    state_ := State.kSuspended, suspend_count_ := n, user_callback_ := t.user_callback_ }

end PosixConditionThread

namespace PosixThread

/-- The method `PosixThread::Terminate(exit_code)`. -/
def Terminate (exit_code : Int) (t : PosixConditionThread) : PosixConditionThread :=
  PosixConditionThread.Terminate exit_code t

end PosixThread

/-! ## Objects behind handles, `WaitMultiple` and the public wait functions -/

/-- The method `PosixCondition<Semaphore>::Signal()`: `Release(1, nullptr)`. -/
def PosixConditionSemaphore.Signal (s : PosixConditionSemaphore) :
    Bool × PosixConditionSemaphore :=
  ((PosixConditionSemaphore.Release 1 none s).1, (PosixConditionSemaphore.Release 1 none s).2.2)

/-- The method `PosixCondition<Mutant>::Signal()`: `Release()`. -/
def PosixConditionMutant.Signal (this_thread : Nat) (s : PosixConditionMutant) :
    Bool × PosixConditionMutant :=
  PosixConditionMutant.Release this_thread s

/-- The method `PosixCondition<Thread>::Signal()`: `true`, nothing changes. -/
def PosixConditionThread.Signal (t : PosixConditionThread) : Bool × PosixConditionThread :=
  (true, t)

/-- An object of class `PosixConditionBase`: one of the five specialisations
of `PosixCondition<T>`. -/
inductive PosixConditionBase where
  | event (e : PosixConditionEvent)
  | semaphore (s : PosixConditionSemaphore)
  | mutant (m : PosixConditionMutant)
  | timer (t : PosixConditionTimer)
  | thread (t : PosixConditionThread)
  deriving DecidableEq, Repr

namespace PosixConditionBase

/-- The virtual method `signaled()`, evaluated by `this_thread`. -/
def signaled (this_thread : Nat) : PosixConditionBase → Bool
  | event e => PosixConditionEvent.signaled e
  | semaphore s => PosixConditionSemaphore.signaled s
  | mutant m => PosixConditionMutant.signaled this_thread m
  | timer t => PosixConditionTimer.signaled t
  | thread t => PosixConditionThread.signaled t

/-- The virtual method `post_execution()`, run by `this_thread`. -/
def post_execution (this_thread : Nat) : PosixConditionBase → PosixConditionBase
  | event e => event (PosixConditionEvent.post_execution e)
  | semaphore s => semaphore (PosixConditionSemaphore.post_execution s)
  | mutant m => mutant (PosixConditionMutant.post_execution this_thread m)
  | timer t => timer (PosixConditionTimer.post_execution t)
  | thread t => thread (PosixConditionThread.post_execution t)

/-- The virtual method `Signal()`, called by `this_thread`.  For a timer the
callback that `CompletionRoutine` calls is not followed. -/
def Signal (this_thread : Nat) : PosixConditionBase → Bool × PosixConditionBase
  | event e => ((PosixConditionEvent.Signal e).1, event (PosixConditionEvent.Signal e).2)
  | semaphore s =>
    ((PosixConditionSemaphore.Signal s).1, semaphore (PosixConditionSemaphore.Signal s).2)
  | mutant m =>
    ((PosixConditionMutant.Signal this_thread m).1,
      mutant (PosixConditionMutant.Signal this_thread m).2)
  | timer t => ((PosixConditionTimer.Signal t).1, timer (PosixConditionTimer.Signal t).2)
  | thread t => ((PosixConditionThread.Signal t).1, thread (PosixConditionThread.Signal t).2)

/-- The value `std::numeric_limits<size_t>::max()`. -/
def SIZE_MAX : Nat := 2 ^ 64 - 1

/-- The `for` loop of `WaitMultiple` over the handles, which are addresses into
`heap`, from counter `i` on.  The counter is declared `auto i = 0u`, a 32-bit
`unsigned`, so `++i` wraps at `2^32`; `fuel` bounds the rounds, `none` when it
runs out. -/
def WaitMultiple_loop (this_thread : Nat) (handles : List Nat) (wait_all : Bool) :
    Nat → Nat → Nat → (Nat → PosixConditionBase) → Option (Nat × (Nat → PosixConditionBase))
  | 0, _, _, _ => none
  | fuel + 1, i, first_signaled, heap =>
    match handles[i]? with
    | none => some (first_signaled, heap)
    | some h =>
      if signaled this_thread (heap h) then
        if !wait_all then
          some (if first_signaled > i then i else first_signaled,
            Function.update heap h (post_execution this_thread (heap h)))
        else
          WaitMultiple_loop this_thread handles wait_all fuel ((i + 1) % 2 ^ 32)
            (if first_signaled > i then i else first_signaled)
            (Function.update heap h (post_execution this_thread (heap h)))
      else
        WaitMultiple_loop this_thread handles wait_all fuel ((i + 1) % 2 ^ 32)
          first_signaled heap

/-- The static method `PosixConditionBase::WaitMultiple(handles, wait_all,
timeout)`, called by `this_thread`.  The aggregate is `std::all_of` or
`std::any_of` of `signaled()`.  The loop is given `handles.size() + 1` rounds:
a vector shorter than `2^32` is walked to its end within them, and on a longer
one the counter never reaches the end, so that running out of rounds is a loop
that does not end (`none`, as for a wait that blocks for ever). -/
def WaitMultiple (this_thread : Nat) (handles : List Nat) (wait_all : Bool) (timeout : Int)
    (heap : Nat → PosixConditionBase) :
    Option (WaitResult × Nat × (Nat → PosixConditionBase)) :=
  if (if wait_all then handles.all (fun h => signaled this_thread (heap h))
      else handles.any (fun h => signaled this_thread (heap h))) then
    match WaitMultiple_loop this_thread handles wait_all (handles.length + 1) 0 SIZE_MAX heap with
    | some (first_signaled, heap1) => some (WaitResult.kSuccess, first_signaled, heap1)
    | none => none
  else if timeout = milliseconds_max then
    none
  else
    some (WaitResult.kTimeout, 0, heap)

end PosixConditionBase

/-! ## User callbacks and the alertable flag -/

/-- What a delivery of the user-callback signal does on the thread it reaches. -/
inductive CallbackEffect where
  | nothing
  | called (callback : Nat)
  | bad_function_call
  deriving DecidableEq, Repr

/-- Modelled from the spec: the result enumeration of the sleeps, declared in
`threading.h` (the header is not part of the sources). -/
inductive SleepResult where
  | kSuccess
  | kAlerted
  deriving DecidableEq, Repr

/-- The method `PosixCondition<Thread>::QueueUserCallback(callback)`: stores
the callback, then sends the user-callback signal to the thread; `none` when
`WaitStarted` does not return. -/
def PosixConditionThread.QueueUserCallback (callback : Option Nat)
    (t : PosixConditionThread) : Option PosixConditionThread :=
  if PosixConditionThread.WaitStarted t then
    some { t with user_callback_ := callback }
  else none

/-- The method `PosixCondition<Thread>::CallUserCallback()`: calls
`user_callback_`; calling an empty `std::function` throws. -/
def PosixConditionThread.CallUserCallback (t : PosixConditionThread) : CallbackEffect :=
  match t.user_callback_ with
  | some callback => CallbackEffect.called callback
  | none => CallbackEffect.bad_function_call

/-- The `case SignalType::kThreadUserCallback` of `signal_handler`, run on the
thread the signal is delivered to, whose thread-local flag is
`alertable_state_`; `p_thread` is the object the signal carries. -/
def signal_handler_kThreadUserCallback (alertable_state_ : Bool)
    (p_thread : PosixConditionThread) : CallbackEffect :=
  if alertable_state_ then PosixConditionThread.CallUserCallback p_thread
  else CallbackEffect.nothing

/-- The function `Sleep(duration)` on a thread whose flag is `alertable_state_`,
with the user-callback signals in `deliveries` reaching the thread while it
sleeps (`nanosleep` is restarted after each): the flag afterwards and what each
delivery did.  What a called callback does itself is not followed. -/
def Sleep (deliveries : List PosixConditionThread) (alertable_state_ : Bool) :
    Bool × List CallbackEffect :=
  (alertable_state_, deliveries.map (signal_handler_kThreadUserCallback alertable_state_))

/-- The function `AlertableSleep(duration)`: sets the flag, whatever it was,
sleeps, clears the flag and returns `kSuccess`; the second component is the flag
afterwards. -/
def AlertableSleep (deliveries : List PosixConditionThread) :
    SleepResult × Bool × List CallbackEffect :=
  (SleepResult.kSuccess, false, (Sleep deliveries true).2)

/-! ## The public wait functions -/

/-- The state the public wait functions work on: the objects behind the
handles, by address, and the thread-local `alertable_state_` of the caller. -/
structure ThreadingState where
  heap : Nat → PosixConditionBase
  alertable_state_ : Bool

/-- The function `Wait(wait_handle, is_alertable, timeout)`, called by
`this_thread`.  A handle is `some p` when `dynamic_cast<PosixWaitHandle*>`
succeeds and `condition()` is the object at `p`, and `none` when the cast
yields `nullptr`.  The user-callback signals in `deliveries` reach the calling
thread while the call runs, after the write `alertable_state_ = true` when the
call makes it: the second component is what `signal_handler` did on each, with
the flag as the call has it then, whether or not the wait returns.  What a
called callback does itself is not followed. -/
def Wait (this_thread : Nat) (wait_handle : Option Nat) (is_alertable : Bool) (timeout : Int)
    (deliveries : List PosixConditionThread) (st : ThreadingState) :
    Option (WaitResult × ThreadingState) × List CallbackEffect :=
  match wait_handle with
  | none =>
    (some (WaitResult.kFailed, st),
      deliveries.map (signal_handler_kThreadUserCallback st.alertable_state_))
  | some p =>
    let st1 : ThreadingState := if is_alertable then { st with alertable_state_ := true } else st
    let effects := deliveries.map (signal_handler_kThreadUserCallback st1.alertable_state_)
    match PosixConditionBase.Wait (PosixConditionBase.signaled this_thread)
        (PosixConditionBase.post_execution this_thread) timeout (st1.heap p) with
    | some (result, c) =>
      let st2 : ThreadingState := { st1 with heap := Function.update st1.heap p c }
      (some (result, if is_alertable then { st2 with alertable_state_ := false } else st2),
        effects)
    | none => (none, effects)

/-- The function `SignalAndWait(wait_handle_to_signal, wait_handle_to_wait_on,
is_alertable, timeout)`, called by `this_thread`; `deliveries` as for `Wait`.
The flag is written before `Signal()` is called. -/
def SignalAndWait (this_thread : Nat) (wait_handle_to_signal wait_handle_to_wait_on : Option Nat)
    (is_alertable : Bool) (timeout : Int) (deliveries : List PosixConditionThread)
    (st : ThreadingState) : Option (WaitResult × ThreadingState) × List CallbackEffect :=
  match wait_handle_to_signal, wait_handle_to_wait_on with
  | some p, some q =>
    let st1 : ThreadingState := if is_alertable then { st with alertable_state_ := true } else st
    let effects := deliveries.map (signal_handler_kThreadUserCallback st1.alertable_state_)
    let st2 : ThreadingState :=
      { st1 with
        heap := Function.update st1.heap p (PosixConditionBase.Signal this_thread (st1.heap p)).2 }
    if (PosixConditionBase.Signal this_thread (st1.heap p)).1 then
      match PosixConditionBase.Wait (PosixConditionBase.signaled this_thread)
          (PosixConditionBase.post_execution this_thread) timeout (st2.heap q) with
      | some (result, c) =>
        let st3 : ThreadingState := { st2 with heap := Function.update st2.heap q c }
        (some (result, if is_alertable then { st3 with alertable_state_ := false } else st3),
          effects)
      | none => (none, effects)
    else
      (some (WaitResult.kFailed,
          if is_alertable then { st2 with alertable_state_ := false } else st2),
        effects)
  | _, _ =>
    (some (WaitResult.kFailed, st),
      deliveries.map (signal_handler_kThreadUserCallback st.alertable_state_))

/-- The handles of `WaitMultiple` resolved in order, as its first loop does:
`none` as soon as one `dynamic_cast` yields `nullptr`. -/
def WaitMultiple_conditions : List (Option Nat) → Option (List Nat)
  | [] => some []
  | none :: _ => none
  | some p :: rest =>
    match WaitMultiple_conditions rest with
    | some conditions => some (p :: conditions)
    | none => none

/-- The function `WaitMultiple(wait_handles, wait_handle_count, wait_all,
is_alertable, timeout)`, called by `this_thread`; `deliveries` as for `Wait`. -/
def WaitMultiple (this_thread : Nat) (wait_handles : List (Option Nat)) (wait_all : Bool)
    (is_alertable : Bool) (timeout : Int) (deliveries : List PosixConditionThread)
    (st : ThreadingState) : Option (WaitResult × Nat × ThreadingState) × List CallbackEffect :=
  match WaitMultiple_conditions wait_handles with
  | none =>
    (some (WaitResult.kFailed, 0, st),
      deliveries.map (signal_handler_kThreadUserCallback st.alertable_state_))
  | some conditions =>
    let st1 : ThreadingState := if is_alertable then { st with alertable_state_ := true } else st
    let effects := deliveries.map (signal_handler_kThreadUserCallback st1.alertable_state_)
    match PosixConditionBase.WaitMultiple this_thread conditions wait_all timeout st1.heap with
    | some (result, index, heap1) =>
      let st2 : ThreadingState := { st1 with heap := heap1 }
      (some (result, index,
          if is_alertable then { st2 with alertable_state_ := false } else st2),
        effects)
    | none => (none, effects)

/-! ## Signals -/

/-- The enumeration `SignalType`. -/
inductive SignalType where
  | kHighResolutionTimer
  | kTimer
  | kThreadSuspend
  | kThreadUserCallback
  | k_Count
  deriving DecidableEq, Repr

namespace SignalType

/-- The conversion `static_cast<int>(num)`: the ordinal of the enumerator. -/
def toInt : SignalType → Int
  | kHighResolutionTimer => 0
  | kTimer => 1
  | kThreadSuspend => 2
  | kThreadUserCallback => 3
  | k_Count => 4

/-- The conversion `static_cast<SignalType>(n)`; `none` when `n` is the value
of no enumerator. -/
def ofInt (n : Int) : Option SignalType :=
  if n = 0 then some kHighResolutionTimer
  else if n = 1 then some kTimer
  else if n = 2 then some kThreadSuspend
  else if n = 3 then some kThreadUserCallback
  else if n = 4 then some k_Count
  else none

end SignalType

/-- The function `GetSystemSignal(num)`; `SIGRTMIN` is the value the C library
gives at run time.  The `assert_true(result < SIGRTMAX)` does not change the
result. -/
def GetSystemSignal (SIGRTMIN : Int) (num : SignalType) : Int :=
  SIGRTMIN + num.toInt

/-- The function `GetSystemSignalType(num)`. -/
def GetSystemSignalType (SIGRTMIN : Int) (num : Int) : Option SignalType :=
  SignalType.ofInt (num - SIGRTMIN)

/-- The `switch` of `signal_handler`: the purpose whose `case` runs for the
delivered signal; `none` is the `default` branch. -/
def signal_handler_case (SIGRTMIN : Int) (signal : Int) : Option SignalType :=
  match GetSystemSignalType SIGRTMIN signal with
  | some SignalType.kHighResolutionTimer => some SignalType.kHighResolutionTimer
  | some SignalType.kTimer => some SignalType.kTimer
  | some SignalType.kThreadSuspend => some SignalType.kThreadSuspend
  | some SignalType.kThreadUserCallback => some SignalType.kThreadUserCallback
  | _ => none

/-- The function `install_signal_handler(type)` on the thread-local array
`signal_handler_installed`; `sigaction_result` is what `sigaction` returns when
it is called.  The first component says whether `sigaction` was called. -/
def install_signal_handler (type : SignalType) (sigaction_result : Int)
    (signal_handler_installed : SignalType → Bool) : Bool × (SignalType → Bool) :=
  if signal_handler_installed type then
    (false, signal_handler_installed)
  else if sigaction_result = -1 then
    (true, Function.update signal_handler_installed type true)
  else
    (true, signal_handler_installed)

end xe.threading

/-! ## Host clock and file system (`clock_posix.cc`, `filesystem_posix.cc`) -/

namespace xe

/-- The function `Clock::QueryHostSystemTime()` on the `timeval` that
`gettimeofday` gives; a `uint64_t`. -/
def Clock.QueryHostSystemTime (tv_sec tv_usec : Int) : Nat :=
  (((tv_sec + (369 * 365 + 89) * (3600 * 24)) * 10000000 + tv_usec * 10) % 2 ^ 64).toNat

namespace filesystem

/-- The function `CreateFolder(path)`; `mkdir_result` is what `mkdir` returns.
The `int` is returned as `bool`. -/
def CreateFolder (mkdir_result : Int) : Bool :=
  decide (mkdir_result ≠ 0)

/-- The function `convertUnixtimeToWinFiletime(unixtime)` on the fields of the
`timespec`; a `uint64_t`. -/
def convertUnixtimeToWinFiletime (tv_sec tv_nsec : Int) : Nat :=
  ((tv_sec * 10000000 + tv_nsec + 116444736000000000) % 2 ^ 64).toNat

end filesystem

end xe

/-! ## STFS containers (`stfs_container_device.cc`) -/

namespace xe.vfs

/-- The days from 1601-01-01 to the first of January of `year`, for
`year ≥ 1601`, in the Gregorian calendar. -/
def daysBeforeYear (year : Nat) : Nat :=
  365 * (year - 1601) + (year - 1601) / 4 - (year - 1601) / 100 + (year - 1601) / 400

/-- Whether `year` is a leap year of the Gregorian calendar. -/
def isLeapYear (year : Nat) : Bool :=
  (year % 4 = 0 && year % 100 ≠ 0) || year % 400 = 0

/-- The days from the first of January to the first of `month` (1 to 12) in
`year`. -/
def daysBeforeMonth (year month : Nat) : Nat :=
  (match month with
    | 1 => 0 | 2 => 31 | 3 => 59 | 4 => 90 | 5 => 120 | 6 => 151
    | 7 => 181 | 8 => 212 | 9 => 243 | 10 => 273 | 11 => 304 | _ => 334)
  + (if isLeapYear year && decide (2 < month) then 1 else 0)

/-- The library function `timegm`, on the fields `decode_fat_timestamp` sets
(none of them negative): the seconds from 1970-01-01 00:00:00 UTC to the
broken-down UTC time.  `tm_year` counts from 1900, `tm_mon` counts the months
from January, `0` to `11`, and a larger value carries into the year; the
other fields add on linearly. -/
def timegm (tm_year tm_mon tm_mday tm_hour tm_min tm_sec : Nat) : Int :=
  (((daysBeforeYear (tm_year + 1900 + tm_mon / 12)
      + daysBeforeMonth (tm_year + 1900 + tm_mon / 12) (tm_mon % 12 + 1) : Nat) : Int)
    + (tm_mday : Int) - 1 - (369 * 365 + 89)) * 86400
    + (tm_hour : Int) * 3600 + (tm_min : Int) * 60 + (tm_sec : Int)

/-- The function `decode_fat_timestamp(date, time)`; a `uint64_t`. -/
def decode_fat_timestamp (date time : Nat) : Nat :=
  let tm_year := ((0xFE00 &&& date) >>> 9) + 80
  let tm_mon := (0x01E0 &&& date) >>> 5
  let tm_mday := (0x001F &&& date) >>> 0
  let tm_hour := (0xF800 &&& time) >>> 11
  let tm_min := (0x07E0 &&& time) >>> 5
  let tm_sec := (0x001F &&& time) <<< 1
  let timet := timegm tm_year tm_mon tm_mday tm_hour tm_min tm_sec
  if timet = -1 then 0
  else (((timet + 11644473600) * 10000000) % 2 ^ 64).toNat

/-- The number of 100-nanosecond intervals from 1601-01-01 00:00:00 UTC to the
calendar instant `year`-`month`-`day` `hour`:`minute`:`second` UTC, with the
month counted from 1: what the comment of `decode_fat_timestamp` promises. -/
def filetimeOfCivil (year month day hour minute second : Nat) : Nat :=
  (((daysBeforeYear year + daysBeforeMonth year month + (day - 1)) * 86400
    + hour * 3600 + minute * 60 + second) * 10000000)

/-- Modelled from the spec: the table `kSTFSDataBlocksPerHashLevel` of
`stfs_container_device.h` (the header is not part of the sources), the
capacities `170`, `170^2`, `170^3` of the three hash levels. -/
def kSTFSDataBlocksPerHashLevel : Nat → Nat
  | 0 => 170
  | 1 => 28900
  | _ => 4913000

/-- The `for` loop of `STFSDataBlockToBackingBlock` from counter `i` on, with
`rounds` rounds left until `i` reaches `3`; all values are `uint64_t`. -/
def STFSDataBlockToBackingBlock_loop (blocks_per_hash_table_ block_index : Nat) :
    Nat → Nat → Nat → Nat
  | 0, _, block => block
  | rounds + 1, i, block =>
    if block_index < kSTFSDataBlocksPerHashLevel i then
      (block + blocks_per_hash_table_
        * (((block_index + kSTFSDataBlocksPerHashLevel i) % 2 ^ 64)
            / kSTFSDataBlocksPerHashLevel i) % 2 ^ 64) % 2 ^ 64
    else
      STFSDataBlockToBackingBlock_loop blocks_per_hash_table_ block_index rounds (i + 1)
        ((block + blocks_per_hash_table_
          * (((block_index + kSTFSDataBlocksPerHashLevel i) % 2 ^ 64)
              / kSTFSDataBlocksPerHashLevel i) % 2 ^ 64) % 2 ^ 64)

/-- The method `StfsContainerDevice::STFSDataBlockToBackingBlock(block_index)`
of a device with the given `blocks_per_hash_table_`. -/
def STFSDataBlockToBackingBlock (blocks_per_hash_table_ block_index : Nat) : Nat :=
  STFSDataBlockToBackingBlock_loop blocks_per_hash_table_ block_index 3 0 block_index

/-- The method `StfsContainerDevice::STFSBackingBlockToOffset(backing_block)`;
`header_offset` is the value of `xe::round_up(header_.header.header_size,
0x1000)`, whose definition is in a header that is not part of the sources. -/
def STFSBackingBlockToOffset (header_offset backing_block : Nat) : Nat :=
  (header_offset + (backing_block * 0x1000) % 2 ^ 64) % 2 ^ 64

/-- The method `StfsContainerDevice::STFSDataBlockToOffset(block)`. -/
def STFSDataBlockToOffset (blocks_per_hash_table_ header_offset block : Nat) : Nat :=
  STFSBackingBlockToOffset header_offset
    (STFSDataBlockToBackingBlock blocks_per_hash_table_ block)

end xe.vfs

namespace xe.threading

/-! ## Properties of the semaphore -/

theorem toUInt32_of_nonneg (n : Int) (h0 : 0 ≤ n) (h1 : n < 2 ^ 32) :
    toUInt32 n = n.toNat := by
  unfold toUInt32
  rw [Int.emod_eq_of_lt h0 h1]

theorem toInt32_of_lt (u : Nat) (h : u < 2 ^ 31) : toInt32 u = (u : Int) := by
  unfold toInt32
  have h1 : u % 2 ^ 32 = u := Nat.mod_eq_of_lt (by omega)
  rw [h1, if_pos h]

/-- With the invariant in force a `Release` of `n` with `n < 1` or
`count + n > maximum_count` returns `false` and changes neither the semaphore
nor the out-parameter. -/
theorem PosixSemaphore.Release_rejected_of_invariant (s : PosixConditionSemaphore)
    (n : Int) (prev : Option Int) (hinv : s.invariant) (hn32 : isInt32 n)
    (hbad : n < 1 ∨ (s.maximum_count_ : Int) < (s.count_ : Int) + n) :
    PosixSemaphore.Release n prev s = (false, prev, s) := by
  obtain ⟨hle, hmax⟩ := hinv
  obtain ⟨_, hn2⟩ := hn32
  unfold PosixSemaphore.Release
  by_cases h1 : n < 1
  · rw [if_pos h1]
  · rw [if_neg h1]
    have hn0 : 0 ≤ n := by omega
    have hcast : toUInt32 n = n.toNat := toUInt32_of_nonneg n hn0 (by omega)
    have hgt : (s.maximum_count_ : Int) < (s.count_ : Int) + n := by
      rcases hbad with h | h
      · exact absurd h h1
      · exact h
    unfold PosixConditionSemaphore.Release
    rw [hcast]
    have hsub : (s.maximum_count_ + 2 ^ 32 - s.count_) % 2 ^ 32
        = s.maximum_count_ - s.count_ := by
      have : s.maximum_count_ + 2 ^ 32 - s.count_
          = (s.maximum_count_ - s.count_) + 2 ^ 32 := by omega
      rw [this, Nat.add_mod_right]
      exact Nat.mod_eq_of_lt (by omega)
    rw [hsub, if_neg]
    omega

/-- Claim C1, evaluated on the code at `Semaphore::Create(10, 5)`: the call
`Release(1, &previous_count)` with `previous_count = -1` has `count + n = 11`
above `maximum_count = 5`, yet it returns `true`, writes `10` to
`previous_count` and raises `count` to `11`. -/
theorem Semaphore.Release_over_maximum_after_unchecked_Create :
    Semaphore.Create 10 5 = some { count_ := 10, maximum_count_ := 5 } ∧
    toInt32 (PosixConditionSemaphore.maximum_count_ { count_ := 10, maximum_count_ := 5 })
      < toInt32 (PosixConditionSemaphore.count_ { count_ := 10, maximum_count_ := 5 }) + 1 ∧
    PosixSemaphore.Release 1 (some (-1)) { count_ := 10, maximum_count_ := 5 }
      = (true, some 10, { count_ := 11, maximum_count_ := 5 }) := by
  decide

/-- Claim C2: on a semaphore with `0 ≤ count ≤ maximum_count` a `Release` of
`n ≥ 1` with `count + n ≤ maximum_count` returns `true`, stores the count before
the call in the out-parameter (when one is given), and leaves the semaphore with
count `count + n` and the same maximum. -/
theorem PosixSemaphore.Release_success (s : PosixConditionSemaphore) (n : Int)
    (prev : Option Int) (hinv : s.invariantInt) (hn : 1 ≤ n)
    (hle : (s.count_ : Int) + n ≤ (s.maximum_count_ : Int)) :
    PosixSemaphore.Release n prev s
      = (true, prev.map (fun _ => (s.count_ : Int)),
          { count_ := s.count_ + n.toNat, maximum_count_ := s.maximum_count_ }) := by
  obtain ⟨hcm, hmax⟩ := hinv
  unfold PosixSemaphore.Release
  rw [if_neg (by omega)]
  have hcast : toUInt32 n = n.toNat := toUInt32_of_nonneg n (by omega) (by omega)
  unfold PosixConditionSemaphore.Release
  rw [hcast]
  have hsub : (s.maximum_count_ + 2 ^ 32 - s.count_) % 2 ^ 32
      = s.maximum_count_ - s.count_ := by
    have : s.maximum_count_ + 2 ^ 32 - s.count_
        = (s.maximum_count_ - s.count_) + 2 ^ 32 := by omega
    rw [this, Nat.add_mod_right]
    exact Nat.mod_eq_of_lt (by omega)
  rw [hsub, if_pos (by omega)]
  have hprev : toInt32 s.count_ = (s.count_ : Int) := toInt32_of_lt _ (by omega)
  have hsum : (s.count_ + n.toNat) % 2 ^ 32 = s.count_ + n.toNat :=
    Nat.mod_eq_of_lt (by omega)
  rw [hprev, hsum]

theorem PosixSemaphore.Release_success_witness :
    PosixConditionSemaphore.invariantInt { count_ := 1, maximum_count_ := 5 } ∧
    PosixSemaphore.Release 2 (some 7) { count_ := 1, maximum_count_ := 5 }
      = (true, (some (7 : Int)).map (fun _ => (((1 : Nat) : Int))),
          { count_ := 1 + (2 : Int).toNat, maximum_count_ := 5 }) :=
  ⟨by decide,
    PosixSemaphore.Release_success { count_ := 1, maximum_count_ := 5 } 2 (some 7)
      (by decide) (by decide) (by decide)⟩

/-- Claim C3, as stated, fails at its last step: after `Create(0,5)`, a timed
out wait, `Release(2)` and a successful wait the count is `1`, so the final
`Release(1, &prev)` does not leave `prev == 2`. -/
theorem Semaphore.scenario_last_previous_count_ne_two :
    Semaphore.Create 0 5 = some { count_ := 0, maximum_count_ := 5 } ∧
    PosixConditionSemaphore.Wait 10 { count_ := 0, maximum_count_ := 5 }
      = some (WaitResult.kTimeout, { count_ := 0, maximum_count_ := 5 }) ∧
    PosixSemaphore.Release 2 (some 0) { count_ := 0, maximum_count_ := 5 }
      = (true, some 0, { count_ := 2, maximum_count_ := 5 }) ∧
    PosixConditionSemaphore.Wait 10 { count_ := 2, maximum_count_ := 5 }
      = some (WaitResult.kSuccess, { count_ := 1, maximum_count_ := 5 }) ∧
    (PosixSemaphore.Release 1 (some 0) { count_ := 1, maximum_count_ := 5 }).2.1 ≠ some 2 := by
  decide

/-- Claim C3, amended: on `Semaphore::Create(0,5)`, `Wait(sem,10ms)` returns
`kTimeout`; then `Release(2,&prev)` returns `true` with `prev == 0`; then
`Wait(sem,10ms)` returns `kSuccess`; then `Release(1,&prev)` returns `true`
with `prev == 1`.  The out-parameter starts at any value `p`. -/
theorem Semaphore.scenario (p : Int) :
    Semaphore.Create 0 5 = some { count_ := 0, maximum_count_ := 5 } ∧
    PosixConditionSemaphore.Wait 10 { count_ := 0, maximum_count_ := 5 }
      = some (WaitResult.kTimeout, { count_ := 0, maximum_count_ := 5 }) ∧
    PosixSemaphore.Release 2 (some p) { count_ := 0, maximum_count_ := 5 }
      = (true, some 0, { count_ := 2, maximum_count_ := 5 }) ∧
    PosixConditionSemaphore.Wait 10 { count_ := 2, maximum_count_ := 5 }
      = some (WaitResult.kSuccess, { count_ := 1, maximum_count_ := 5 }) ∧
    PosixSemaphore.Release 1 (some 0) { count_ := 1, maximum_count_ := 5 }
      = (true, some 1, { count_ := 2, maximum_count_ := 5 }) := by
  refine ⟨by decide, by decide, ?_, by decide, by decide⟩
  have h := PosixSemaphore.Release_success { count_ := 0, maximum_count_ := 5 } 2 (some p)
    (by decide) (by decide) (by decide)
  simpa using h

theorem PosixConditionSemaphore.sub_mod (a b : Nat) (hab : a ≤ b) (hb : b < 2 ^ 32) :
    (b + 2 ^ 32 - a) % 2 ^ 32 = b - a := by
  have : b + 2 ^ 32 - a = (b - a) + 2 ^ 32 := by omega
  rw [this, Nat.add_mod_right]
  exact Nat.mod_eq_of_lt (by omega)

/-- Claim C4: when `0 ≤ count ≤ maximum_count` holds it holds again after every
`Release` (which leaves the maximum alone, and the whole semaphore when it
returns `false`) and after every wait.  A wait on a positive count returns
`kSuccess` and takes exactly one off the count; a wait on count `0` never
returns `kSuccess`, and with a finite timeout it returns `kTimeout` and changes
nothing. -/
theorem PosixConditionSemaphore.invariant_preserved (s : PosixConditionSemaphore)
    (hinv : s.invariant) :
    (∀ (n : Int) (prev : Option Int),
      (PosixSemaphore.Release n prev s).2.2.invariant ∧
      (PosixSemaphore.Release n prev s).2.2.maximum_count_ = s.maximum_count_ ∧
      ((PosixSemaphore.Release n prev s).1 = false →
        (PosixSemaphore.Release n prev s).2.2 = s)) ∧
    (∀ (timeout : Int),
      (0 < s.count_ → PosixConditionSemaphore.Wait timeout s
        = some (WaitResult.kSuccess,
            { count_ := s.count_ - 1, maximum_count_ := s.maximum_count_ })) ∧
      (s.count_ = 0 → timeout ≠ milliseconds_max →
        PosixConditionSemaphore.Wait timeout s = some (WaitResult.kTimeout, s)) ∧
      (s.count_ = 0 → ∀ s2, PosixConditionSemaphore.Wait timeout s
        ≠ some (WaitResult.kSuccess, s2)) ∧
      (∀ r s2, PosixConditionSemaphore.Wait timeout s = some (r, s2) → s2.invariant)) := by
  obtain ⟨hcm, hmax⟩ := hinv
  have hpos : ∀ timeout : Int, 0 < s.count_ → PosixConditionSemaphore.Wait timeout s
      = some (WaitResult.kSuccess,
          { count_ := s.count_ - 1, maximum_count_ := s.maximum_count_ }) := by
    intro timeout h
    have hdec : (s.count_ + 2 ^ 32 - 1) % 2 ^ 32 = s.count_ - 1 := by
      have : s.count_ + 2 ^ 32 - 1 = (s.count_ - 1) + 2 ^ 32 := by omega
      rw [this, Nat.add_mod_right]
      exact Nat.mod_eq_of_lt (by omega)
    have hs : PosixConditionSemaphore.signaled s = true := by
      simp [PosixConditionSemaphore.signaled, h]
    unfold PosixConditionSemaphore.Wait PosixConditionBase.Wait
    rw [if_pos hs]
    unfold PosixConditionSemaphore.post_execution
    rw [hdec]
  have hzero : ∀ timeout : Int, s.count_ = 0 →
      PosixConditionSemaphore.Wait timeout s
        = if timeout = milliseconds_max then none else some (WaitResult.kTimeout, s) := by
    intro timeout h
    simp [PosixConditionSemaphore.Wait, PosixConditionBase.Wait,
      PosixConditionSemaphore.signaled, h]
  refine ⟨?_, ?_⟩
  · intro n prev
    unfold PosixSemaphore.Release
    by_cases h1 : n < 1
    · rw [if_pos h1]
      exact ⟨⟨hcm, hmax⟩, rfl, fun _ => rfl⟩
    · rw [if_neg h1]
      unfold PosixConditionSemaphore.Release
      rw [PosixConditionSemaphore.sub_mod _ _ hcm hmax]
      by_cases h2 : toUInt32 n ≤ s.maximum_count_ - s.count_
      · rw [if_pos h2]
        have hsum : (s.count_ + toUInt32 n) % 2 ^ 32 = s.count_ + toUInt32 n :=
          Nat.mod_eq_of_lt (by omega)
        refine ⟨⟨?_, hmax⟩, rfl, ?_⟩
        · show (s.count_ + toUInt32 n) % 2 ^ 32 ≤ s.maximum_count_
          rw [hsum]; omega
        · intro h; cases h
      · rw [if_neg h2]
        exact ⟨⟨hcm, hmax⟩, rfl, fun _ => rfl⟩
  · intro timeout
    refine ⟨hpos timeout, ?_, ?_, ?_⟩
    · intro h0 hfin
      rw [hzero timeout h0, if_neg hfin]
    · intro h0 s2 h
      rw [hzero timeout h0] at h
      by_cases hfin : timeout = milliseconds_max
      · rw [if_pos hfin] at h; cases h
      · rw [if_neg hfin] at h; cases h
    · intro r s2 h
      by_cases hc : 0 < s.count_
      · rw [hpos timeout hc] at h
        cases h
        exact ⟨by show s.count_ - 1 ≤ s.maximum_count_; omega, hmax⟩
      · have h0 : s.count_ = 0 := by omega
        rw [hzero timeout h0] at h
        by_cases hfin : timeout = milliseconds_max
        · rw [if_pos hfin] at h; cases h
        · rw [if_neg hfin] at h; cases h
          exact ⟨hcm, hmax⟩

theorem PosixConditionSemaphore.invariant_preserved_witness :
    PosixConditionSemaphore.invariant { count_ := 2, maximum_count_ := 5 } ∧
    (PosixSemaphore.Release 3 (some 0) { count_ := 2, maximum_count_ := 5 }).2.2.invariant ∧
    PosixConditionSemaphore.Wait 10 { count_ := 2, maximum_count_ := 5 }
      = some (WaitResult.kSuccess, { count_ := 2 - 1, maximum_count_ := 5 }) :=
  ⟨by decide,
    ((PosixConditionSemaphore.invariant_preserved { count_ := 2, maximum_count_ := 5 }
      (by decide)).1 3 (some 0)).1,
    ((PosixConditionSemaphore.invariant_preserved { count_ := 2, maximum_count_ := 5 }
      (by decide)).2 10).1 (by decide)⟩

/-- Claim C5, evaluated on the code: `Semaphore::Create` checks nothing.  The
pairs `(10,5)`, `(-1,5)` and `(0,-1)` each yield a semaphore, with the
arguments cast to `uint32_t`; the first two have a count above the maximum. -/
theorem Semaphore.Create_accepts_invalid_arguments :
    Semaphore.Create 10 5 = some { count_ := 10, maximum_count_ := 5 } ∧
    Semaphore.Create (-1) 5 = some { count_ := 4294967295, maximum_count_ := 5 } ∧
    Semaphore.Create 0 (-1) = some { count_ := 0, maximum_count_ := 4294967295 } ∧
    ¬ PosixConditionSemaphore.invariant { count_ := 10, maximum_count_ := 5 } ∧
    ¬ PosixConditionSemaphore.invariant { count_ := 4294967295, maximum_count_ := 5 } := by
  decide

/-! ## Properties of the mutant -/

theorem PosixConditionMutant.Wait_of_signaled (t : Nat) (timeout : Int)
    (s : PosixConditionMutant) (h : PosixConditionMutant.signaled t s = true) :
    PosixConditionMutant.Wait t timeout s
      = some (WaitResult.kSuccess, PosixConditionMutant.post_execution t s) := by
  unfold PosixConditionMutant.Wait PosixConditionBase.Wait
  rw [if_pos h]

theorem PosixConditionMutant.Wait_of_not_signaled (t : Nat) (timeout : Int)
    (s : PosixConditionMutant) (h : PosixConditionMutant.signaled t s = false) :
    PosixConditionMutant.Wait t timeout s
      = if timeout = milliseconds_max then none else some (WaitResult.kTimeout, s) := by
  unfold PosixConditionMutant.Wait PosixConditionBase.Wait
  rw [if_neg (by simp [h])]

theorem PosixConditionMutant.signaled_of_owner (t : Nat) (s : PosixConditionMutant)
    (h : s.owner_ = some t) : PosixConditionMutant.signaled t s = true := by
  simp [PosixConditionMutant.signaled, h]

theorem PosixConditionMutant.signaled_of_count_zero (t : Nat) (s : PosixConditionMutant)
    (h : s.count_ = 0) : PosixConditionMutant.signaled t s = true := by
  simp [PosixConditionMutant.signaled, h]

theorem PosixConditionMutant.not_signaled_of_other (t u : Nat) (s : PosixConditionMutant)
    (hown : s.owner_ = some t) (hpos : 0 < s.count_) (hne : u ≠ t) :
    PosixConditionMutant.signaled u s = false := by
  have h1 : s.count_ ≠ 0 := by omega
  have h2 : t ≠ u := fun h => hne h.symm
  simp [PosixConditionMutant.signaled, hown, h1, h2]

/-- The owner's waits add to the count modulo `2^32`. -/
theorem PosixConditionMutant.WaitTimes_of_owner (t : Nat) (timeout : Int) (k : Nat) :
    ∀ s : PosixConditionMutant, s.owner_ = some t → s.count_ < 2 ^ 32 →
      PosixConditionMutant.WaitTimes t timeout k s
        = some { count_ := (s.count_ + k) % 2 ^ 32, owner_ := some t } := by
  induction k with
  | zero =>
    intro s hown hlt
    obtain ⟨c, o⟩ := s
    simp only at hown hlt
    subst hown
    simp only [PosixConditionMutant.WaitTimes, Nat.add_zero]
    rw [Nat.mod_eq_of_lt hlt]
  | succ k ih =>
    intro s hown hlt
    simp only [PosixConditionMutant.WaitTimes]
    rw [PosixConditionMutant.Wait_of_signaled t timeout s
      (PosixConditionMutant.signaled_of_owner t s hown)]
    simp only
    rw [ih (PosixConditionMutant.post_execution t s) rfl
      (by show (s.count_ + 1) % 2 ^ 32 < 2 ^ 32; omega)]
    have : ((PosixConditionMutant.post_execution t s).count_ + k) % 2 ^ 32
        = (s.count_ + (k + 1)) % 2 ^ 32 := by
      show ((s.count_ + 1) % 2 ^ 32 + k) % 2 ^ 32 = (s.count_ + (k + 1)) % 2 ^ 32
      omega
    rw [this]

/-- From an unowned mutant `k ≥ 1` waits of `t` all succeed and leave `t` as
owner with count `k` modulo `2^32`. -/
theorem PosixConditionMutant.WaitTimes_of_count_zero (t : Nat) (timeout : Int) (k : Nat)
    (s : PosixConditionMutant) (hs : s.count_ = 0) (hk : 1 ≤ k) :
    PosixConditionMutant.WaitTimes t timeout k s
      = some { count_ := k % 2 ^ 32, owner_ := some t } := by
  obtain ⟨j, rfl⟩ : ∃ j, k = j + 1 := ⟨k - 1, by omega⟩
  simp only [PosixConditionMutant.WaitTimes]
  rw [PosixConditionMutant.Wait_of_signaled t timeout s
    (PosixConditionMutant.signaled_of_count_zero t s hs)]
  simp only
  rw [PosixConditionMutant.WaitTimes_of_owner t timeout j
    (PosixConditionMutant.post_execution t s) rfl
    (by show (s.count_ + 1) % 2 ^ 32 < 2 ^ 32; omega)]
  have : ((PosixConditionMutant.post_execution t s).count_ + j) % 2 ^ 32
      = (j + 1) % 2 ^ 32 := by
    show ((s.count_ + 1) % 2 ^ 32 + j) % 2 ^ 32 = (j + 1) % 2 ^ 32
    rw [hs]; omega
  rw [this]

theorem PosixConditionMutant.Release_of_owner (t : Nat) (s : PosixConditionMutant)
    (hown : s.owner_ = some t) (hpos : 0 < s.count_) (hlt : s.count_ < 2 ^ 32) :
    PosixConditionMutant.Release t s
      = (true, { count_ := s.count_ - 1, owner_ := some t }) := by
  unfold PosixConditionMutant.Release
  rw [if_pos ⟨hown, hpos⟩]
  have : (s.count_ + 2 ^ 32 - 1) % 2 ^ 32 = s.count_ - 1 := by omega
  rw [this, hown]

theorem PosixConditionMutant.Release_of_count_zero (t : Nat) (s : PosixConditionMutant)
    (h0 : s.count_ = 0) : PosixConditionMutant.Release t s = (false, s) := by
  unfold PosixConditionMutant.Release
  rw [if_neg (by omega)]

theorem PosixConditionMutant.Release_of_other (u : Nat) (s : PosixConditionMutant)
    (hne : s.owner_ ≠ some u) : PosixConditionMutant.Release u s = (false, s) := by
  unfold PosixConditionMutant.Release
  rw [if_neg (fun h => hne h.1)]

/-- The owner's first `j ≤ count` releases each take one off the count. -/
theorem PosixConditionMutant.ReleaseTimes_of_owner (t : Nat) (j : Nat) :
    ∀ s : PosixConditionMutant, s.owner_ = some t → j ≤ s.count_ → s.count_ < 2 ^ 32 →
      PosixConditionMutant.ReleaseTimes t j s
        = { count_ := s.count_ - j, owner_ := some t } := by
  induction j with
  | zero =>
    intro s hown _ _
    obtain ⟨c, o⟩ := s
    simp only at hown
    subst hown
    simp [PosixConditionMutant.ReleaseTimes]
  | succ j ih =>
    intro s hown hle hlt
    simp only [PosixConditionMutant.ReleaseTimes]
    rw [PosixConditionMutant.Release_of_owner t s hown (by omega) hlt]
    rw [ih { count_ := s.count_ - 1, owner_ := some t } rfl
      (by show j ≤ s.count_ - 1; omega) (by show s.count_ - 1 < 2 ^ 32; omega)]
    have : s.count_ - 1 - j = s.count_ - (j + 1) := by omega
    simp only [this]

/-- A mutant owned by `t` with count `c` takes exactly `c` releases of `t`:
each of the first `c` returns `true`, the count is not `0` before the `c`-th
and is `0` after it, and the next release returns `false`. -/
theorem PosixConditionMutant.release_exactly_count (t : Nat) (s : PosixConditionMutant)
    (hown : s.owner_ = some t) (hlt : s.count_ < 2 ^ 32) :
    (∀ j, j < s.count_ →
      (PosixConditionMutant.Release t (PosixConditionMutant.ReleaseTimes t j s)).1 = true ∧
      (PosixConditionMutant.ReleaseTimes t j s).owner_ = some t ∧
      (PosixConditionMutant.ReleaseTimes t j s).count_ ≠ 0) ∧
    PosixConditionMutant.ReleaseTimes t s.count_ s = { count_ := 0, owner_ := some t } ∧
    (PosixConditionMutant.Release t (PosixConditionMutant.ReleaseTimes t s.count_ s)).1
      = false := by
  refine ⟨?_, ?_, ?_⟩
  · intro j hj
    rw [PosixConditionMutant.ReleaseTimes_of_owner t j s hown (by omega) hlt]
    refine ⟨?_, rfl, ?_⟩
    · rw [PosixConditionMutant.Release_of_owner t _ rfl
        (by show 0 < s.count_ - j; omega) (by show s.count_ - j < 2 ^ 32; omega)]
    · show s.count_ - j ≠ 0
      omega
  · rw [PosixConditionMutant.ReleaseTimes_of_owner t s.count_ s hown (le_refl _) hlt]
    simp
  · rw [PosixConditionMutant.ReleaseTimes_of_owner t s.count_ s hown (le_refl _) hlt]
    rw [PosixConditionMutant.Release_of_count_zero t _ (by show s.count_ - s.count_ = 0; omega)]

theorem PosixConditionMutant.Release_owner (u : Nat) (s : PosixConditionMutant) :
    (PosixConditionMutant.Release u s).2.owner_ = s.owner_ := by
  obtain ⟨c, o⟩ := s
  unfold PosixConditionMutant.Release
  split
  · dsimp only
  · dsimp only

theorem MutantOp.owner_of_step (get_id : Nat → Nat) (i : Nat) (s : PosixConditionMutant)
    (op : MutantOp)
    (hnot : ∀ u, get_id u = i → MutantOp.isSuccessfulWaitOf get_id u s op = false)
    (hown : (MutantOp.step get_id s op).owner_ = some i) : s.owner_ = some i := by
  cases op with
  | wait u timeout =>
    by_cases hsig : PosixConditionMutant.signaled (get_id u) s = true
    · have hw := PosixConditionMutant.Wait_of_signaled (get_id u) timeout s hsig
      simp only [MutantOp.step, hw] at hown
      have hut : get_id u = i := by
        have : (PosixConditionMutant.post_execution (get_id u) s).owner_
            = some (get_id u) := by
          unfold PosixConditionMutant.post_execution
          dsimp only
        rw [this] at hown
        exact Option.some.inj hown
      have hno := hnot u hut
      simp [MutantOp.isSuccessfulWaitOf, hw] at hno
    · have hsig2 : PosixConditionMutant.signaled (get_id u) s = false := by
        simpa using hsig
      have hw := PosixConditionMutant.Wait_of_not_signaled (get_id u) timeout s hsig2
      by_cases hfin : timeout = milliseconds_max
      · rw [if_pos hfin] at hw
        simpa only [MutantOp.step, hw] using hown
      · rw [if_neg hfin] at hw
        simpa only [MutantOp.step, hw] using hown
  | release u =>
    simp only [MutantOp.step] at hown
    rw [PosixConditionMutant.Release_owner] at hown
    exact hown

/-- When the mutant is owned under the id `i` after a sequence of operations,
either it was owned under `i` before or a thread with the id `i` completed a
successful wait in the sequence. -/
theorem MutantOp.owner_of_run (get_id : Nat → Nat) (i : Nat) (ops : List MutantOp) :
    ∀ s : PosixConditionMutant,
      (∀ u, get_id u = i → MutantOp.hasSuccessfulWaitOf get_id u s ops = false) →
      (MutantOp.run get_id s ops).owner_ = some i → s.owner_ = some i := by
  induction ops with
  | nil => intro s _ h; exact h
  | cons op ops ih =>
    intro s hnot hown
    have h1 : ∀ u, get_id u = i → MutantOp.isSuccessfulWaitOf get_id u s op = false := by
      intro u hu
      have h := hnot u hu
      simp only [MutantOp.hasSuccessfulWaitOf, Bool.or_eq_false_iff] at h
      exact h.1
    have h2 : ∀ u, get_id u = i →
        MutantOp.hasSuccessfulWaitOf get_id u (MutantOp.step get_id s op) ops = false := by
      intro u hu
      have h := hnot u hu
      simp only [MutantOp.hasSuccessfulWaitOf, Bool.or_eq_false_iff] at h
      exact h.2
    exact MutantOp.owner_of_step get_id i s op h1 (ih (MutantOp.step get_id s op) h2 hown)

/-- Claim C6, as stated, fails in two ways.  Thread `1` creates a mutant with
`initial_owner = true`: it has not waited at all, and its `Release()` returns
`true`.  And on a mutant that thread `0` created unowned, thread `1` completes
a wait and ends; thread `2` starts later and runs under the id thread `1` had:
it has completed no wait, and its `Release()` returns `true`, because
`Release()` compares `owner_` with the id of the caller. -/
theorem Mutant.Release_true_without_wait :
    MutantOp.hasSuccessfulWaitOf (fun u => u) 1 (Mutant.Create true 1) [] = false ∧
    (PosixConditionMutant.Release 1
      (MutantOp.run (fun u => u) (Mutant.Create true 1) [])).1 = true ∧
    MutantOp.hasSuccessfulWaitOf (fun u => if u = 0 then 10 else 11) 1
      (Mutant.Create false 10) [MutantOp.wait 1 10] = true ∧
    MutantOp.hasSuccessfulWaitOf (fun u => if u = 0 then 10 else 11) 2
      (Mutant.Create false 10) [MutantOp.wait 1 10] = false ∧
    (PosixConditionMutant.Release ((fun u => if u = 0 then 10 else 11) 2)
      (MutantOp.run (fun u => if u = 0 then 10 else 11) (Mutant.Create false 10)
        [MutantOp.wait 1 10])).1 = true := by
  decide

/-- Claim C6, amended: for every mutant, created by thread `creator` with
`initial_owner` true or false, every assignment `get_id` of ids to threads,
every sequence of waits and releases of any threads, and every thread `t`
whose id is not the id of the creator of an initially owned mutant: if no
thread that runs under the id of `t`, `t` itself included, has completed a
successful wait in the sequence, `Release()` called by `t` returns `false` and
leaves the mutant as it is. -/
theorem Mutant.Release_false_of_never_waited (get_id : Nat → Nat) (initial_owner : Bool)
    (creator t : Nat) (ops : List MutantOp)
    (hcreator : initial_owner = true → get_id t ≠ get_id creator)
    (hnever : ∀ u, get_id u = get_id t →
      MutantOp.hasSuccessfulWaitOf get_id u (Mutant.Create initial_owner (get_id creator)) ops
        = false) :
    PosixConditionMutant.Release (get_id t)
        (MutantOp.run get_id (Mutant.Create initial_owner (get_id creator)) ops)
      = (false, MutantOp.run get_id (Mutant.Create initial_owner (get_id creator)) ops) := by
  apply PosixConditionMutant.Release_of_other
  intro hown
  have h0 := MutantOp.owner_of_run get_id (get_id t) ops _ hnever hown
  cases initial_owner with
  | false =>
    simp [Mutant.Create, PosixConditionMutant.mk_] at h0
  | true =>
    simp [Mutant.Create, PosixConditionMutant.mk_] at h0
    exact hcreator rfl h0.symm

theorem Mutant.Release_false_of_never_waited_witness :
    (∀ u, (fun v : Nat => v / 2) u = (fun v : Nat => v / 2) 5 →
      MutantOp.hasSuccessfulWaitOf (fun v => v / 2) u
        (Mutant.Create true ((fun v : Nat => v / 2) 2))
        [MutantOp.wait 4 10, MutantOp.release 2, MutantOp.wait 6 10, MutantOp.release 4]
        = false) ∧
    PosixConditionMutant.Release ((fun v : Nat => v / 2) 5)
        (MutantOp.run (fun v => v / 2) (Mutant.Create true ((fun v : Nat => v / 2) 2))
          [MutantOp.wait 4 10, MutantOp.release 2, MutantOp.wait 6 10, MutantOp.release 4])
      = (false,
          MutantOp.run (fun v => v / 2) (Mutant.Create true ((fun v : Nat => v / 2) 2))
            [MutantOp.wait 4 10, MutantOp.release 2, MutantOp.wait 6 10,
              MutantOp.release 4]) :=
  have hnever : ∀ u, (fun v : Nat => v / 2) u = (fun v : Nat => v / 2) 5 →
      MutantOp.hasSuccessfulWaitOf (fun v => v / 2) u
        (Mutant.Create true ((fun v : Nat => v / 2) 2))
        [MutantOp.wait 4 10, MutantOp.release 2, MutantOp.wait 6 10, MutantOp.release 4]
        = false := by
    intro u hu
    have h2 : u / 2 = 5 / 2 := hu
    have h3 : u = 4 ∨ u = 5 := by omega
    rcases h3 with h4 | h4 <;> subst h4 <;> decide
  ⟨hnever,
    Mutant.Release_false_of_never_waited (fun v => v / 2) true 2 5
      [MutantOp.wait 4 10, MutantOp.release 2, MutantOp.wait 6 10, MutantOp.release 4]
      (by decide) hnever⟩

/-- Claim C7, as stated, fails at `N = 2^32`: the count is a `uint32_t`, so
after `2^32` successful waits of thread `1` on an unowned mutant it is `0`
again and the first `Release()` of thread `1` returns `false`. -/
theorem Mutant.nested_release_fails_at_uint32_wrap :
    PosixConditionMutant.WaitTimes 1 10 (2 ^ 32) (Mutant.Create false 1)
      = some { count_ := 0, owner_ := some 1 } ∧
    (PosixConditionMutant.Release 1 { count_ := 0, owner_ := some 1 }).1 = false := by
  refine ⟨?_, by decide⟩
  rw [PosixConditionMutant.WaitTimes_of_count_zero 1 10 (2 ^ 32) (Mutant.Create false 1)
    rfl (by norm_num)]
  have : (2 ^ 32) % 2 ^ 32 = 0 := Nat.mod_self _
  rw [this]

/-- Claim C7, amended to the range of the `uint32_t` count: for every `N` with
`1 ≤ N < 2^32`, the `N` waits of thread `t` on an unowned mutant (count `0`)
all succeed; the next `N` calls of `Release()` by `t` each return `true` and the
`(N+1)`-th returns `false`; the count is `0` after the `N`-th release and not
before.  On a mutant created by `t` with `initial_owner = true`, and
`N + 1 < 2^32`, the same holds with `N + 1` releases. -/
theorem Mutant.nested_release (t : Nat) (timeout : Int) (N : Nat)
    (s : PosixConditionMutant) (hs : s.count_ = 0) (hN : 1 ≤ N) (hN32 : N < 2 ^ 32) :
    (PosixConditionMutant.WaitTimes t timeout N s = some { count_ := N, owner_ := some t } ∧
      (∀ j, j < N →
        (PosixConditionMutant.Release t
          (PosixConditionMutant.ReleaseTimes t j { count_ := N, owner_ := some t })).1 = true ∧
        (PosixConditionMutant.ReleaseTimes t j { count_ := N, owner_ := some t }).count_ ≠ 0) ∧
      (PosixConditionMutant.ReleaseTimes t N { count_ := N, owner_ := some t }).count_ = 0 ∧
      (PosixConditionMutant.Release t
        (PosixConditionMutant.ReleaseTimes t N { count_ := N, owner_ := some t })).1 = false) ∧
    (N + 1 < 2 ^ 32 →
      PosixConditionMutant.WaitTimes t timeout N (Mutant.Create true t)
        = some { count_ := N + 1, owner_ := some t } ∧
      (∀ j, j < N + 1 →
        (PosixConditionMutant.Release t
          (PosixConditionMutant.ReleaseTimes t j { count_ := N + 1, owner_ := some t })).1
            = true ∧
        (PosixConditionMutant.ReleaseTimes t j { count_ := N + 1, owner_ := some t }).count_
          ≠ 0) ∧
      (PosixConditionMutant.ReleaseTimes t (N + 1) { count_ := N + 1, owner_ := some t }).count_
        = 0 ∧
      (PosixConditionMutant.Release t
        (PosixConditionMutant.ReleaseTimes t (N + 1)
          { count_ := N + 1, owner_ := some t })).1 = false) := by
  constructor
  · have hrel := PosixConditionMutant.release_exactly_count t
      { count_ := N, owner_ := some t } rfl hN32
    refine ⟨?_, fun j hj => ⟨(hrel.1 j hj).1, (hrel.1 j hj).2.2⟩, ?_, hrel.2.2⟩
    · rw [PosixConditionMutant.WaitTimes_of_count_zero t timeout N s hs hN,
        Nat.mod_eq_of_lt hN32]
    · have := hrel.2.1
      simp only at this
      rw [this]
  · intro hN1
    have hrel := PosixConditionMutant.release_exactly_count t
      { count_ := N + 1, owner_ := some t } rfl hN1
    refine ⟨?_, fun j hj => ⟨(hrel.1 j hj).1, (hrel.1 j hj).2.2⟩, ?_, hrel.2.2⟩
    · rw [PosixConditionMutant.WaitTimes_of_owner t timeout N (Mutant.Create true t) rfl
        (by show (1 : Nat) < 2 ^ 32; norm_num)]
      have : ((Mutant.Create true t).count_ + N) % 2 ^ 32 = N + 1 := by
        show (1 + N) % 2 ^ 32 = N + 1
        omega
      rw [this]
    · have := hrel.2.1
      simp only at this
      rw [this]

theorem Mutant.nested_release_witness :
    (Mutant.Create false 7).count_ = 0 ∧
    PosixConditionMutant.WaitTimes 4 10 3 (Mutant.Create false 7)
      = some { count_ := 3, owner_ := some 4 } ∧
    (PosixConditionMutant.ReleaseTimes 4 3 { count_ := 3, owner_ := some 4 }).count_ = 0 ∧
    (PosixConditionMutant.Release 4
      (PosixConditionMutant.ReleaseTimes 4 3 { count_ := 3, owner_ := some 4 })).1 = false :=
  ⟨by decide,
    (Mutant.nested_release 4 10 3 (Mutant.Create false 7) (by decide) (by decide)
      (by norm_num)).1.1,
    (Mutant.nested_release 4 10 3 (Mutant.Create false 7) (by decide) (by decide)
      (by norm_num)).1.2.2.1,
    (Mutant.nested_release 4 10 3 (Mutant.Create false 7) (by decide) (by decide)
      (by norm_num)).1.2.2.2⟩

/-- Claim C8: while thread `t` owns a mutant (`count > 0`, `owner = t`), a wait
of another thread `u` never returns `kSuccess` (with a finite timeout it returns
`kTimeout` and changes nothing) and `Release()` by `u` returns `false` and
changes nothing; this stays so through the first `count - 1` releases of `t`.
Once the releases of `t` have brought the count to `0`, a wait of `u` returns
`kSuccess` and leaves `owner = u`, `count = 1`. -/
theorem Mutant.mutual_exclusion (s : PosixConditionMutant) (t u : Nat) (timeout : Int)
    (hown : s.owner_ = some t) (hpos : 0 < s.count_) (hlt : s.count_ < 2 ^ 32)
    (hne : u ≠ t) :
    (timeout ≠ milliseconds_max →
      PosixConditionMutant.Wait u timeout s = some (WaitResult.kTimeout, s)) ∧
    (∀ s2, PosixConditionMutant.Wait u timeout s ≠ some (WaitResult.kSuccess, s2)) ∧
    PosixConditionMutant.Release u s = (false, s) ∧
    (∀ j, j < s.count_ →
      (timeout ≠ milliseconds_max →
        PosixConditionMutant.Wait u timeout (PosixConditionMutant.ReleaseTimes t j s)
          = some (WaitResult.kTimeout, PosixConditionMutant.ReleaseTimes t j s)) ∧
      (∀ s2, PosixConditionMutant.Wait u timeout (PosixConditionMutant.ReleaseTimes t j s)
          ≠ some (WaitResult.kSuccess, s2)) ∧
      PosixConditionMutant.Release u (PosixConditionMutant.ReleaseTimes t j s)
          = (false, PosixConditionMutant.ReleaseTimes t j s)) ∧
    (PosixConditionMutant.ReleaseTimes t s.count_ s).count_ = 0 ∧
    PosixConditionMutant.Wait u timeout (PosixConditionMutant.ReleaseTimes t s.count_ s)
      = some (WaitResult.kSuccess, { count_ := 1, owner_ := some u }) := by
  have hrel := PosixConditionMutant.release_exactly_count t s hown hlt
  have hall : ∀ j, j < s.count_ →
      (timeout ≠ milliseconds_max →
        PosixConditionMutant.Wait u timeout (PosixConditionMutant.ReleaseTimes t j s)
          = some (WaitResult.kTimeout, PosixConditionMutant.ReleaseTimes t j s)) ∧
      (∀ s2, PosixConditionMutant.Wait u timeout (PosixConditionMutant.ReleaseTimes t j s)
          ≠ some (WaitResult.kSuccess, s2)) ∧
      PosixConditionMutant.Release u (PosixConditionMutant.ReleaseTimes t j s)
          = (false, PosixConditionMutant.ReleaseTimes t j s) := by
    intro j hj
    obtain ⟨_, hownj, hcj⟩ := hrel.1 j hj
    have hns := PosixConditionMutant.not_signaled_of_other t u _ hownj (by omega) hne
    have hw := PosixConditionMutant.Wait_of_not_signaled u timeout _ hns
    refine ⟨?_, ?_, ?_⟩
    · intro hfin
      rw [hw, if_neg hfin]
    · intro s2 h
      rw [hw] at h
      by_cases hfin : timeout = milliseconds_max
      · rw [if_pos hfin] at h; cases h
      · rw [if_neg hfin] at h; cases h
    · apply PosixConditionMutant.Release_of_other
      rw [hownj]
      intro h
      exact hne (Option.some.inj h).symm
  have h0 := hall 0 hpos
  simp only [PosixConditionMutant.ReleaseTimes] at h0
  refine ⟨h0.1, h0.2.1, h0.2.2, hall, ?_, ?_⟩
  · rw [hrel.2.1]
  · rw [hrel.2.1]
    rw [PosixConditionMutant.Wait_of_signaled u timeout _
      (PosixConditionMutant.signaled_of_count_zero u _ rfl)]
    rfl

theorem Mutant.mutual_exclusion_witness :
    PosixConditionMutant.Wait 2 10 { count_ := 2, owner_ := some 1 }
      = some (WaitResult.kTimeout, { count_ := 2, owner_ := some 1 }) ∧
    PosixConditionMutant.Release 2 { count_ := 2, owner_ := some 1 }
      = (false, { count_ := 2, owner_ := some 1 }) ∧
    PosixConditionMutant.Wait 2 10
      (PosixConditionMutant.ReleaseTimes 1 2 { count_ := 2, owner_ := some 1 })
      = some (WaitResult.kSuccess, { count_ := 1, owner_ := some 2 }) :=
  ⟨(Mutant.mutual_exclusion { count_ := 2, owner_ := some 1 } 1 2 10 rfl (by decide)
      (by norm_num) (by decide)).1 (by decide),
    (Mutant.mutual_exclusion { count_ := 2, owner_ := some 1 } 1 2 10 rfl (by decide)
      (by norm_num) (by decide)).2.2.1,
    (Mutant.mutual_exclusion { count_ := 2, owner_ := some 1 } 1 2 10 rfl (by decide)
      (by norm_num) (by decide)).2.2.2.2.2⟩

/-! ## Properties of the event -/

theorem PosixConditionEvent.Wait_of_signal (timeout : Int) (s : PosixConditionEvent)
    (h : s.signal_ = true) :
    PosixConditionEvent.Wait timeout s
      = some (WaitResult.kSuccess, PosixConditionEvent.post_execution s) := by
  unfold PosixConditionEvent.Wait PosixConditionBase.Wait
  rw [if_pos (by simpa [PosixConditionEvent.signaled] using h)]

theorem PosixConditionEvent.Wait_of_not_signal (timeout : Int) (s : PosixConditionEvent)
    (h : s.signal_ = false) :
    PosixConditionEvent.Wait timeout s
      = if timeout = milliseconds_max then none else some (WaitResult.kTimeout, s) := by
  unfold PosixConditionEvent.Wait PosixConditionBase.Wait
  rw [if_neg (by simp [PosixConditionEvent.signaled, h])]

theorem PosixEvent.SetTimes_of_pos (k : Nat) (hk : 1 ≤ k) :
    ∀ s : PosixConditionEvent,
      PosixEvent.SetTimes k s = { signal_ := true, manual_reset_ := s.manual_reset_ } := by
  induction k with
  | zero => omega
  | succ k ih =>
    intro s
    simp only [PosixEvent.SetTimes]
    cases k with
    | zero => rfl
    | succ k =>
      rw [ih (by omega)]
      rfl

/-- Claim C9: on an auto-reset event, after `k ≥ 1` calls of `Set()` the first
wait returns `kSuccess` and clears the signal; a second wait with no `Set()` in
between never returns `kSuccess`, and with a finite timeout it returns
`kTimeout`, leaving the event unsignaled. -/
theorem PosixEvent.auto_reset_consumed_once (s : PosixConditionEvent) (k : Nat)
    (timeout1 timeout2 : Int) (hauto : s.manual_reset_ = false) (hk : 1 ≤ k) :
    PosixConditionEvent.Wait timeout1 (PosixEvent.SetTimes k s)
      = some (WaitResult.kSuccess, { signal_ := false, manual_reset_ := false }) ∧
    (∀ s2, PosixConditionEvent.Wait timeout2 { signal_ := false, manual_reset_ := false }
      ≠ some (WaitResult.kSuccess, s2)) ∧
    (timeout2 ≠ milliseconds_max →
      PosixConditionEvent.Wait timeout2 { signal_ := false, manual_reset_ := false }
        = some (WaitResult.kTimeout, { signal_ := false, manual_reset_ := false })) := by
  have hw := PosixConditionEvent.Wait_of_not_signal timeout2
    { signal_ := false, manual_reset_ := false } rfl
  refine ⟨?_, ?_, ?_⟩
  · rw [PosixEvent.SetTimes_of_pos k hk s, hauto,
      PosixConditionEvent.Wait_of_signal timeout1 _ rfl]
    rfl
  · intro s2 h
    rw [hw] at h
    by_cases hfin : timeout2 = milliseconds_max
    · rw [if_pos hfin] at h; cases h
    · rw [if_neg hfin] at h; cases h
  · intro hfin
    rw [hw, if_neg hfin]

theorem PosixEvent.auto_reset_consumed_once_witness :
    PosixConditionEvent.Wait 50
        (PosixEvent.SetTimes 2 (Event.CreateAutoResetEvent false))
      = some (WaitResult.kSuccess, { signal_ := false, manual_reset_ := false }) ∧
    PosixConditionEvent.Wait 50 { signal_ := false, manual_reset_ := false }
      = some (WaitResult.kTimeout, { signal_ := false, manual_reset_ := false }) :=
  ⟨(PosixEvent.auto_reset_consumed_once (Event.CreateAutoResetEvent false) 2 50 50 rfl
      (by decide)).1,
    (PosixEvent.auto_reset_consumed_once (Event.CreateAutoResetEvent false) 2 50 50 rfl
      (by decide)).2.2 (by decide)⟩

theorem PosixConditionEvent.WaitTimes_of_manual (timeout : Int) (k : Nat)
    (s : PosixConditionEvent) (hman : s.manual_reset_ = true) (hsig : s.signal_ = true) :
    PosixConditionEvent.WaitTimes timeout k s = some s := by
  induction k with
  | zero => rfl
  | succ k ih =>
    simp only [PosixConditionEvent.WaitTimes]
    rw [PosixConditionEvent.Wait_of_signal timeout s hsig]
    have : PosixConditionEvent.post_execution s = s := by
      simp [PosixConditionEvent.post_execution, hman]
    rw [this]
    exact ih

/-- Claim C10: on a manual-reset event that is signaled, any number `k` of
successive waits all return `kSuccess` and leave it signaled.  `Reset()` leaves
the event unsignaled whatever its state was, and a second `Reset()` changes
nothing more; after it a wait never returns `kSuccess` (with a finite timeout
it returns `kTimeout`), until `Set()` is called, after which a wait returns
`kSuccess` again. -/
theorem PosixEvent.manual_reset_until_Reset (s : PosixConditionEvent)
    (hman : s.manual_reset_ = true) :
    (s.signal_ = true → ∀ (k : Nat) (timeout : Int),
      PosixConditionEvent.WaitTimes timeout k s = some s ∧
      PosixConditionEvent.Wait timeout s = some (WaitResult.kSuccess, s)) ∧
    (PosixEvent.Reset s).signal_ = false ∧
    PosixEvent.Reset (PosixEvent.Reset s) = PosixEvent.Reset s ∧
    (∀ (timeout : Int) s2, PosixConditionEvent.Wait timeout (PosixEvent.Reset s)
      ≠ some (WaitResult.kSuccess, s2)) ∧
    (∀ (timeout : Int), timeout ≠ milliseconds_max →
      PosixConditionEvent.Wait timeout (PosixEvent.Reset s)
        = some (WaitResult.kTimeout, PosixEvent.Reset s)) ∧
    (∀ (timeout : Int), PosixConditionEvent.Wait timeout (PosixEvent.Set (PosixEvent.Reset s))
      = some (WaitResult.kSuccess, PosixEvent.Set (PosixEvent.Reset s))) := by
  have hpost : ∀ e : PosixConditionEvent, e.manual_reset_ = true →
      PosixConditionEvent.post_execution e = e := by
    intro e he
    simp [PosixConditionEvent.post_execution, he]
  refine ⟨?_, rfl, rfl, ?_, ?_, ?_⟩
  · intro hsig k timeout
    refine ⟨PosixConditionEvent.WaitTimes_of_manual timeout k s hman hsig, ?_⟩
    rw [PosixConditionEvent.Wait_of_signal timeout s hsig, hpost s hman]
  · intro timeout s2 h
    rw [PosixConditionEvent.Wait_of_not_signal timeout (PosixEvent.Reset s) rfl] at h
    by_cases hfin : timeout = milliseconds_max
    · rw [if_pos hfin] at h; cases h
    · rw [if_neg hfin] at h; cases h
  · intro timeout hfin
    rw [PosixConditionEvent.Wait_of_not_signal timeout (PosixEvent.Reset s) rfl,
      if_neg hfin]
  · intro timeout
    rw [PosixConditionEvent.Wait_of_signal timeout _ rfl,
      hpost (PosixEvent.Set (PosixEvent.Reset s)) hman]

theorem PosixEvent.manual_reset_until_Reset_witness :
    (Event.CreateManualResetEvent true).manual_reset_ = true ∧
    PosixConditionEvent.WaitTimes 50 3 (Event.CreateManualResetEvent true)
      = some (Event.CreateManualResetEvent true) ∧
    PosixConditionEvent.Wait 50 (PosixEvent.Reset (Event.CreateManualResetEvent true))
      = some (WaitResult.kTimeout, PosixEvent.Reset (Event.CreateManualResetEvent true)) :=
  ⟨rfl,
    ((PosixEvent.manual_reset_until_Reset (Event.CreateManualResetEvent true) rfl).1
      rfl 3 50).1,
    (PosixEvent.manual_reset_until_Reset (Event.CreateManualResetEvent true) rfl).2.2.2.2.1
      50 (by decide)⟩

/-! ## Properties of `WaitMultiple` -/

theorem List.getElem?_append_at_length (done rest : List Nat) (x : Nat) :
    (done ++ x :: rest)[done.length]? = some x := by
  rw [List.getElem?_append_right (le_refl _), Nat.sub_self, List.getElem?_cons_zero]

theorem List.getElem?_at_length_eq_none (l : List Nat) : l[l.length]? = none := by
  rw [List.getElem?_eq_none_iff]

/-- In wait-for-any mode the loop stops at the first signaled handle, when it
lies below `2^32`. -/
theorem PosixConditionBase.WaitMultiple_loop_any (t : Nat) (h : Nat) (post : List Nat)
    (heap : Nat → PosixConditionBase)
    (hsig : PosixConditionBase.signaled t (heap h) = true) :
    ∀ (pre done : List Nat) (fuel first : Nat),
      (∀ x ∈ pre, PosixConditionBase.signaled t (heap x) = false) →
      done.length + pre.length < 2 ^ 32 → pre.length < fuel →
      done.length + pre.length < first →
      PosixConditionBase.WaitMultiple_loop t (done ++ (pre ++ h :: post)) false fuel
          done.length first heap
        = some (done.length + pre.length,
            Function.update heap h (PosixConditionBase.post_execution t (heap h))) := by
  intro pre
  induction pre with
  | nil =>
    intro done fuel first _ _ hfuel hfirst
    obtain ⟨f, rfl⟩ : ∃ f, fuel = f + 1 := ⟨fuel - 1, by simp at hfuel; omega⟩
    simp only [List.nil_append, List.length_nil, Nat.add_zero] at hfirst ⊢
    rw [PosixConditionBase.WaitMultiple_loop, List.getElem?_append_at_length]
    simp only [hsig, if_true, Bool.not_false, if_pos hfirst]
  | cons x pre ih =>
    intro done fuel first hpre hlen hfuel hfirst
    obtain ⟨f, rfl⟩ : ∃ f, fuel = f + 1 := ⟨fuel - 1, by simp at hfuel; omega⟩
    simp only [List.length_cons] at hlen hfuel hfirst
    have hx : PosixConditionBase.signaled t (heap x) = false := hpre x (List.mem_cons_self _ _)
    rw [PosixConditionBase.WaitMultiple_loop, List.cons_append,
      List.getElem?_append_at_length]
    simp only [hx]
    have hi : (done.length + 1) % 2 ^ 32 = (done ++ [x]).length := by
      rw [List.length_append, List.length_singleton]
      exact Nat.mod_eq_of_lt (by omega)
    have hl : done ++ x :: (pre ++ h :: post) = (done ++ [x]) ++ (pre ++ h :: post) := by
      simp
    rw [hi, hl]
    have := ih (done ++ [x]) f first (fun y hy => hpre y (List.mem_cons_of_mem _ hy))
      (by rw [List.length_append, List.length_singleton]; omega) (by omega)
      (by rw [List.length_append, List.length_singleton]; omega)
    rw [this, List.length_append, List.length_singleton, List.length_cons]
    have harith : done.length + 1 + pre.length = done.length + (pre.length + 1) := by omega
    rw [harith]
    simp only [Bool.false_eq_true, if_false]

/-- In wait-for-all mode, over handles that are pairwise distinct and all
signaled, the loop runs `post_execution` on each of them once. -/
theorem PosixConditionBase.WaitMultiple_loop_all (t : Nat) :
    ∀ (rest done : List Nat) (fuel first : Nat) (heap : Nat → PosixConditionBase),
      rest.Nodup → (∀ x ∈ rest, PosixConditionBase.signaled t (heap x) = true) →
      done.length + rest.length < 2 ^ 32 → rest.length < fuel →
      PosixConditionBase.WaitMultiple_loop t (done ++ rest) true fuel done.length first heap
        = some (if rest.length = 0 then first else min first done.length,
            fun p => if p ∈ rest then PosixConditionBase.post_execution t (heap p)
              else heap p) := by
  intro rest
  induction rest with
  | nil =>
    intro done fuel first heap _ _ _ hfuel
    obtain ⟨f, rfl⟩ : ∃ f, fuel = f + 1 := ⟨fuel - 1, by simp at hfuel; omega⟩
    rw [PosixConditionBase.WaitMultiple_loop, List.append_nil,
      List.getElem?_at_length_eq_none]
    simp
  | cons x rest ih =>
    intro done fuel first heap hnodup hall hlen hfuel
    obtain ⟨f, rfl⟩ : ∃ f, fuel = f + 1 := ⟨fuel - 1, by simp at hfuel; omega⟩
    simp only [List.length_cons] at hlen hfuel
    have hx : PosixConditionBase.signaled t (heap x) = true := hall x (List.mem_cons_self _ _)
    have hxrest : x ∉ rest := (List.nodup_cons.mp hnodup).1
    have hnodup2 : rest.Nodup := (List.nodup_cons.mp hnodup).2
    rw [PosixConditionBase.WaitMultiple_loop, List.getElem?_append_at_length]
    simp only [hx, if_true, Bool.not_true, Bool.false_eq_true, if_false]
    have hi : (done.length + 1) % 2 ^ 32 = (done ++ [x]).length := by
      rw [List.length_append, List.length_singleton]
      exact Nat.mod_eq_of_lt (by omega)
    have hl : done ++ x :: rest = (done ++ [x]) ++ rest := by simp
    rw [hi, hl]
    have hall2 : ∀ y ∈ rest, PosixConditionBase.signaled t
        (Function.update heap x (PosixConditionBase.post_execution t (heap x)) y) = true := by
      intro y hy
      have hyx : y ≠ x := fun h => hxrest (h ▸ hy)
      rw [Function.update_noteq hyx]
      exact hall y (List.mem_cons_of_mem _ hy)
    rw [ih (done ++ [x]) f _ _ hnodup2 hall2
      (by rw [List.length_append, List.length_singleton]; omega) (by omega)]
    have hfirst : (if rest.length = 0 then (if first > done.length then done.length else first)
        else min (if first > done.length then done.length else first) (done ++ [x]).length)
        = (if (x :: rest).length = 0 then first else min first done.length) := by
      rw [List.length_append, List.length_singleton, List.length_cons]
      split <;> split <;> split <;> omega
    rw [hfirst]
    congr 2
    funext p
    by_cases hpx : p = x
    · subst hpx
      simp [hxrest]
    · by_cases hp : p ∈ rest
      · simp [hp, hpx, Function.update_noteq hpx]
      · simp [hp, hpx, Function.update_noteq hpx]

/-- When none of the first `2^32` handles is signaled the loop does not end. -/
theorem PosixConditionBase.WaitMultiple_loop_none (t : Nat) (handles : List Nat)
    (wait_all : Bool) (heap : Nat → PosixConditionBase)
    (hall : ∀ j, j < 2 ^ 32 →
      ∃ h, handles[j]? = some h ∧ PosixConditionBase.signaled t (heap h) = false) :
    ∀ (fuel i first : Nat), i < 2 ^ 32 →
      PosixConditionBase.WaitMultiple_loop t handles wait_all fuel i first heap = none := by
  intro fuel
  induction fuel with
  | zero =>
    intro i first _
    rw [PosixConditionBase.WaitMultiple_loop]
  | succ f ih =>
    intro i first hi
    obtain ⟨h, hget, hsig⟩ := hall i hi
    rw [PosixConditionBase.WaitMultiple_loop, hget]
    simp only [hsig, Bool.false_eq_true, if_false]
    exact ih _ first (Nat.mod_lt _ (by norm_num))

/-- More rounds do not change a result of the loop: a run that has ended has
ended for good. -/
theorem PosixConditionBase.WaitMultiple_loop_fuel_succ (t : Nat) (handles : List Nat)
    (wait_all : Bool) :
    ∀ (fuel i first : Nat) (heap : Nat → PosixConditionBase)
      (r : Nat × (Nat → PosixConditionBase)),
      PosixConditionBase.WaitMultiple_loop t handles wait_all fuel i first heap = some r →
      PosixConditionBase.WaitMultiple_loop t handles wait_all (fuel + 1) i first heap
        = some r := by
  intro fuel
  induction fuel with
  | zero =>
    intro i first heap r h
    rw [PosixConditionBase.WaitMultiple_loop] at h
    cases h
  | succ f ih =>
    intro i first heap r h
    rw [PosixConditionBase.WaitMultiple_loop] at h
    rw [PosixConditionBase.WaitMultiple_loop]
    cases hget : handles[i]? with
    | none =>
      rw [hget] at h
      exact h
    | some x =>
      rw [hget] at h
      dsimp only at h ⊢
      by_cases hsig : PosixConditionBase.signaled t (heap x) = true
      · rw [if_pos hsig] at h ⊢
        by_cases hall : (!wait_all) = true
        · rw [if_pos hall] at h ⊢
          exact h
        · rw [if_neg hall] at h ⊢
          exact ih _ _ _ r h
      · rw [if_neg hsig] at h ⊢
        exact ih _ _ _ r h

/-- On a list of `2^32` handles or more the loop of a wait-for-all does not
end, whatever the objects are. -/
theorem PosixConditionBase.WaitMultiple_loop_all_none_of_long (t : Nat) (handles : List Nat)
    (hlong : 2 ^ 32 ≤ handles.length) :
    ∀ (fuel i first : Nat) (heap : Nat → PosixConditionBase), i < 2 ^ 32 →
      PosixConditionBase.WaitMultiple_loop t handles true fuel i first heap = none := by
  intro fuel
  induction fuel with
  | zero =>
    intro i first heap _
    rw [PosixConditionBase.WaitMultiple_loop]
  | succ f ih =>
    intro i first heap hi
    have hget : handles[i]? = some (handles[i]) :=
      List.getElem?_eq_getElem (by omega)
    rw [PosixConditionBase.WaitMultiple_loop, hget]
    dsimp only
    have hnext : (i + 1) % 2 ^ 32 < 2 ^ 32 := Nat.mod_lt _ (by norm_num)
    by_cases hsig : PosixConditionBase.signaled t (heap handles[i]) = true
    · rw [if_pos hsig, if_neg (by simp)]
      exact ih _ _ _ hnext
    · rw [if_neg hsig]
      exact ih _ _ _ hnext

/-- Claim C11, as stated, fails on a list whose lowest signaled index is `2^32`:
the handles are `2^32` times the unsignaled semaphore at address `0`, then the
signaled semaphore at address `1`.  The 32-bit loop counter never reaches the
signaled entry and the call does not return. -/
theorem WaitAny_does_not_return_past_uint32_counter :
    PosixConditionBase.signaled 7
      (PosixConditionBase.semaphore { count_ := 1, maximum_count_ := 5 }) = true ∧
    PosixConditionBase.WaitMultiple 7 (List.replicate (2 ^ 32) 0 ++ [1]) false 10
      (fun p => PosixConditionBase.semaphore
        { count_ := if p = 1 then 1 else 0, maximum_count_ := 5 }) = none := by
  refine ⟨by decide, ?_⟩
  have hany : (List.replicate (2 ^ 32) 0 ++ [1]).any
      (fun h => PosixConditionBase.signaled 7
        ((fun p => PosixConditionBase.semaphore
          { count_ := if p = 1 then 1 else 0, maximum_count_ := 5 }) h)) = true := by
    rw [List.any_eq_true]
    exact ⟨1, List.mem_append_right _ (List.mem_singleton_self 1), by decide⟩
  have hloop := PosixConditionBase.WaitMultiple_loop_none 7
    (List.replicate (2 ^ 32) 0 ++ [1]) false
    (fun p => PosixConditionBase.semaphore
      { count_ := if p = 1 then 1 else 0, maximum_count_ := 5 })
    (by
      intro j hj
      refine ⟨0, ?_, by decide⟩
      rw [List.getElem?_append_left (by rw [List.length_replicate]; exact hj),
        List.getElem?_replicate_of_lt hj])
    ((List.replicate (2 ^ 32) 0 ++ [1]).length + 1) 0 PosixConditionBase.SIZE_MAX
    (by norm_num)
  unfold PosixConditionBase.WaitMultiple
  simp only [Bool.false_eq_true, if_false]
  rw [if_pos hany, hloop]

/-- Claim C11, amended to the range of the 32-bit loop counter: when the
handles are `pre ++ h :: post` with no handle of `pre` signaled, `h` signaled
and `pre` shorter than `2^32`, the wait-for-any returns `kSuccess` with the
index of `h`, the lowest signaled index, whatever the timeout; `post_execution`
runs once on the object of `h` and every other object is as before. -/
theorem WaitAny_lowest_signaled (t : Nat) (pre post : List Nat) (h : Nat) (timeout : Int)
    (heap : Nat → PosixConditionBase)
    (hpre : ∀ x ∈ pre, PosixConditionBase.signaled t (heap x) = false)
    (hsig : PosixConditionBase.signaled t (heap h) = true) (hlen : pre.length < 2 ^ 32) :
    PosixConditionBase.WaitMultiple t (pre ++ h :: post) false timeout heap
      = some (WaitResult.kSuccess, pre.length,
          Function.update heap h (PosixConditionBase.post_execution t (heap h))) := by
  have hany : (pre ++ h :: post).any (fun x => PosixConditionBase.signaled t (heap x))
      = true := by
    rw [List.any_eq_true]
    exact ⟨h, List.mem_append_right _ (List.mem_cons_self _ _), hsig⟩
  have hloop := PosixConditionBase.WaitMultiple_loop_any t h post heap hsig pre []
    ((pre ++ h :: post).length + 1) PosixConditionBase.SIZE_MAX hpre
    (by simp only [List.length_nil]; omega)
    (by rw [List.length_append]; omega)
    (by simp only [List.length_nil, PosixConditionBase.SIZE_MAX]; omega)
  simp only [List.nil_append, List.length_nil, Nat.zero_add] at hloop
  unfold PosixConditionBase.WaitMultiple
  simp only [Bool.false_eq_true, if_false]
  rw [if_pos hany, hloop]

theorem WaitAny_lowest_signaled_witness :
    PosixConditionBase.WaitMultiple 7 ([0] ++ 1 :: []) false 10
        (fun p => PosixConditionBase.semaphore
          { count_ := if p = 1 then 5 else 0, maximum_count_ := 5 })
      = some (WaitResult.kSuccess, [0].length,
          Function.update
            (fun p => PosixConditionBase.semaphore
              { count_ := if p = 1 then 5 else 0, maximum_count_ := 5 })
            1
            (PosixConditionBase.post_execution 7
              (PosixConditionBase.semaphore
                { count_ := if 1 = 1 then 5 else 0, maximum_count_ := 5 }))) :=
  WaitAny_lowest_signaled 7 [0] [] 1 10
    (fun p => PosixConditionBase.semaphore
      { count_ := if p = 1 then 5 else 0, maximum_count_ := 5 })
    (by decide) (by decide) (by norm_num)

/-- Claim C12, as stated, fails when an object is listed twice: a wait-for-all
over the handles `[0, 0]` of one semaphore with count `2` returns `kSuccess` and
leaves the count at `0`, `post_execution` having run on it twice. -/
theorem WaitAll_runs_post_execution_twice_on_repeated_handle :
    (PosixConditionBase.WaitMultiple 7 [0, 0] true 10
        (fun _ => PosixConditionBase.semaphore { count_ := 2, maximum_count_ := 5 })).map
      (fun r => (r.1, r.2.1, r.2.2 0))
      = some (WaitResult.kSuccess, 0,
          PosixConditionBase.semaphore { count_ := 0, maximum_count_ := 5 }) := by
  decide

/-- Claim C12, amended: for every list of fewer than `2^32` pairwise distinct
handles whose objects are all signaled, the wait-for-all returns `kSuccess`
(with index `0`, or `SIZE_MAX` for the empty list) whatever the timeout, and
the objects afterwards are those before with `post_execution` run once on each
object of the list and on no other.  That one `post_execution` clears an
auto-reset event, takes one off the count of a signaled semaphore, and adds one
to the count of a mutant, modulo `2^32`, with the caller as owner. -/
theorem WaitAll_post_execution_on_each (t : Nat) (handles : List Nat) (timeout : Int)
    (heap : Nat → PosixConditionBase) (hnodup : handles.Nodup)
    (hlen : handles.length < 2 ^ 32)
    (hall : ∀ x ∈ handles, PosixConditionBase.signaled t (heap x) = true) :
    PosixConditionBase.WaitMultiple t handles true timeout heap
      = some (WaitResult.kSuccess,
          if handles.length = 0 then PosixConditionBase.SIZE_MAX else 0,
          fun p => if p ∈ handles then PosixConditionBase.post_execution t (heap p)
            else heap p) ∧
    (∀ e : PosixConditionEvent, e.manual_reset_ = false →
      PosixConditionBase.post_execution t (PosixConditionBase.event e)
        = PosixConditionBase.event { signal_ := false, manual_reset_ := false }) ∧
    (∀ s : PosixConditionSemaphore, s.count_ < 2 ^ 32 →
      PosixConditionBase.signaled t (PosixConditionBase.semaphore s) = true →
      PosixConditionBase.post_execution t (PosixConditionBase.semaphore s)
        = PosixConditionBase.semaphore
            { count_ := s.count_ - 1, maximum_count_ := s.maximum_count_ }) ∧
    (∀ m : PosixConditionMutant,
      PosixConditionBase.post_execution t (PosixConditionBase.mutant m)
        = PosixConditionBase.mutant
            { count_ := (m.count_ + 1) % 2 ^ 32, owner_ := some t }) := by
  refine ⟨?_, ?_, ?_, ?_⟩
  · have hagg : handles.all (fun x => PosixConditionBase.signaled t (heap x)) = true := by
      rw [List.all_eq_true]
      exact hall
    have hloop := PosixConditionBase.WaitMultiple_loop_all t handles []
      (handles.length + 1) PosixConditionBase.SIZE_MAX heap hnodup hall
      (by simp only [List.length_nil]; omega) (by omega)
    simp only [List.nil_append, List.length_nil] at hloop
    have hmin : min PosixConditionBase.SIZE_MAX 0 = 0 := Nat.min_zero _
    rw [hmin] at hloop
    unfold PosixConditionBase.WaitMultiple
    simp only [if_true]
    rw [if_pos hagg, hloop]
  · intro e he
    obtain ⟨sig, man⟩ := e
    simp only at he
    subst he
    rfl
  · intro s hs hsig
    obtain ⟨c, m⟩ := s
    simp only at hs
    have hc : 0 < c := by
      simpa [PosixConditionBase.signaled, PosixConditionSemaphore.signaled] using hsig
    have hdec : (c + 2 ^ 32 - 1) % 2 ^ 32 = c - 1 := by omega
    simp only [PosixConditionBase.post_execution, PosixConditionSemaphore.post_execution]
    rw [hdec]
  · intro m
    rfl

theorem WaitAll_post_execution_on_each_witness :
    PosixConditionBase.WaitMultiple 7 [0, 1] true 10
        (fun p => PosixConditionBase.semaphore
          { count_ := if p = 1 then 5 else 1, maximum_count_ := 5 })
      = some (WaitResult.kSuccess,
          if [0, 1].length = 0 then PosixConditionBase.SIZE_MAX else 0,
          fun p => if p ∈ [0, 1] then PosixConditionBase.post_execution 7
              ((fun p => PosixConditionBase.semaphore
                { count_ := if p = 1 then 5 else 1, maximum_count_ := 5 }) p)
            else (fun p => PosixConditionBase.semaphore
                { count_ := if p = 1 then 5 else 1, maximum_count_ := 5 }) p) :=
  (WaitAll_post_execution_on_each 7 [0, 1] 10
    (fun p => PosixConditionBase.semaphore
      { count_ := if p = 1 then 5 else 1, maximum_count_ := 5 })
    (by decide) (by norm_num) (by decide)).1

/-- Claim C13: with a finite timeout, a wait-for-all over a list in which some
object is unsignaled returns `(kTimeout, 0)` and changes no object, whatever the
other objects are; a wait-for-any over a list of unsignaled objects returns
`(kTimeout, 0)` and changes no object. -/
theorem WaitMultiple_timeout_changes_nothing (t : Nat) (handles : List Nat) (timeout : Int)
    (heap : Nat → PosixConditionBase) (hfin : timeout ≠ milliseconds_max) :
    ((∃ x ∈ handles, PosixConditionBase.signaled t (heap x) = false) →
      PosixConditionBase.WaitMultiple t handles true timeout heap
        = some (WaitResult.kTimeout, 0, heap)) ∧
    ((∀ x ∈ handles, PosixConditionBase.signaled t (heap x) = false) →
      PosixConditionBase.WaitMultiple t handles false timeout heap
        = some (WaitResult.kTimeout, 0, heap)) := by
  constructor
  · intro hex
    have hagg : ¬ handles.all (fun x => PosixConditionBase.signaled t (heap x)) = true := by
      rw [List.all_eq_true]
      intro hall
      obtain ⟨x, hx, hsig⟩ := hex
      rw [hall x hx] at hsig
      cases hsig
    unfold PosixConditionBase.WaitMultiple
    simp only [if_true]
    rw [if_neg hagg, if_neg hfin]
  · intro hnone
    have hagg : ¬ handles.any (fun x => PosixConditionBase.signaled t (heap x)) = true := by
      rw [List.any_eq_true]
      rintro ⟨x, hx, hsig⟩
      rw [hnone x hx] at hsig
      cases hsig
    unfold PosixConditionBase.WaitMultiple
    simp only [Bool.false_eq_true, if_false]
    rw [if_neg hagg, if_neg hfin]

theorem WaitMultiple_timeout_changes_nothing_witness :
    PosixConditionBase.WaitMultiple 7 [0, 1] true 10
        (fun p => PosixConditionBase.semaphore
          { count_ := if p = 1 then 5 else 0, maximum_count_ := 5 })
      = some (WaitResult.kTimeout, 0,
          fun p => PosixConditionBase.semaphore
            { count_ := if p = 1 then 5 else 0, maximum_count_ := 5 }) ∧
    PosixConditionBase.WaitMultiple 7 [0, 1] false 10
        (fun _ => PosixConditionBase.semaphore { count_ := 0, maximum_count_ := 5 })
      = some (WaitResult.kTimeout, 0,
          fun _ => PosixConditionBase.semaphore { count_ := 0, maximum_count_ := 5 }) :=
  ⟨(WaitMultiple_timeout_changes_nothing 7 [0, 1] 10
      (fun p => PosixConditionBase.semaphore
        { count_ := if p = 1 then 5 else 0, maximum_count_ := 5 })
      (by decide)).1 ⟨0, by decide, by decide⟩,
    (WaitMultiple_timeout_changes_nothing 7 [0, 1] 10
      (fun _ => PosixConditionBase.semaphore { count_ := 0, maximum_count_ := 5 })
      (by decide)).2 (by decide)⟩


/-! ## Properties of the public wait functions -/

/-- A `Signal()` that returns `false` has changed nothing. -/
theorem PosixConditionBase.Signal_false_unchanged (t : Nat) (c : PosixConditionBase)
    (h : (PosixConditionBase.Signal t c).1 = false) : (PosixConditionBase.Signal t c).2 = c := by
  cases c with
  | event e => simp [PosixConditionBase.Signal, PosixConditionEvent.Signal] at h
  | semaphore s =>
    obtain ⟨n, m⟩ := s
    simp only [PosixConditionBase.Signal, PosixConditionSemaphore.Signal,
      PosixConditionSemaphore.Release] at h ⊢
    split at h
    · simp at h
    · rename_i hg
      rw [if_neg hg]
  | mutant m =>
    obtain ⟨n, o⟩ := m
    simp only [PosixConditionBase.Signal, PosixConditionMutant.Signal,
      PosixConditionMutant.Release] at h ⊢
    split at h
    · simp at h
    · rename_i hg
      rw [if_neg hg]
  | timer x => simp [PosixConditionBase.Signal, PosixConditionTimer.Signal] at h
  | thread x => rfl

theorem WaitMultiple_conditions_of_invalid :
    ∀ wait_handles : List (Option Nat), none ∈ wait_handles →
      WaitMultiple_conditions wait_handles = none := by
  intro wait_handles
  induction wait_handles with
  | nil => intro h; cases h
  | cons a rest ih =>
    intro h
    cases a with
    | none => rfl
    | some p =>
      have hrest : none ∈ rest := by
        rcases List.mem_cons.mp h with h1 | h1
        · cases h1
        · exact h1
      simp only [WaitMultiple_conditions, ih hrest]

/-- Claim C14: when `Signal()` of the object to signal returns `false`,
`SignalAndWait` returns `kFailed` and every object, the one to wait on
included, is as before; when it returns `true`, `SignalAndWait` is `Wait` on
the object to wait on, run on the objects as the signal left them, with the
same result, the same objects afterwards and the same effect of every delivery.
`Signal()` is `false` on a mutant the caller does not own and on a semaphore at
its maximum. -/
theorem SignalAndWait_signals_then_waits (t p q : Nat) (is_alertable : Bool) (timeout : Int)
    (deliveries : List PosixConditionThread) (st : ThreadingState) :
    ((PosixConditionBase.Signal t (st.heap p)).1 = false →
      SignalAndWait t (some p) (some q) is_alertable timeout deliveries st
        = (some (WaitResult.kFailed,
            { heap := st.heap,
              alertable_state_ := if is_alertable then false else st.alertable_state_ }),
           deliveries.map (signal_handler_kThreadUserCallback
             (if is_alertable then true else st.alertable_state_)))) ∧
    ((PosixConditionBase.Signal t (st.heap p)).1 = true →
      SignalAndWait t (some p) (some q) is_alertable timeout deliveries st
        = Wait t (some q) is_alertable timeout deliveries
            { heap := Function.update st.heap p (PosixConditionBase.Signal t (st.heap p)).2,
              alertable_state_ := st.alertable_state_ }) ∧
    (∀ m : PosixConditionMutant, m.owner_ ≠ some t →
      (PosixConditionBase.Signal t (PosixConditionBase.mutant m)).1 = false) ∧
    (∀ s : PosixConditionSemaphore, s.count_ = s.maximum_count_ → s.maximum_count_ < 2 ^ 32 →
      (PosixConditionBase.Signal t (PosixConditionBase.semaphore s)).1 = false) := by
  refine ⟨?_, ?_, ?_, ?_⟩
  · intro hfalse
    have hsame := PosixConditionBase.Signal_false_unchanged t (st.heap p) hfalse
    obtain ⟨heap, flag⟩ := st
    cases is_alertable <;>
      simp only [SignalAndWait, hfalse, Bool.false_eq_true, if_false, if_true, hsame,
        Function.update_eq_self]
  · intro htrue
    obtain ⟨heap, flag⟩ := st
    cases is_alertable <;>
      simp only [SignalAndWait, htrue, Bool.false_eq_true, if_false, if_true, Wait]
  · intro m hm
    simp only [PosixConditionBase.Signal, PosixConditionMutant.Signal]
    rw [PosixConditionMutant.Release_of_other t m hm]
  · intro s hs hmax
    obtain ⟨c, m⟩ := s
    simp only at hs hmax
    subst hs
    have hsub : (c + 2 ^ 32 - c) % 2 ^ 32 = 0 := by
      have : c + 2 ^ 32 - c = 2 ^ 32 := by omega
      rw [this]
      exact Nat.mod_self _
    simp only [PosixConditionBase.Signal, PosixConditionSemaphore.Signal,
      PosixConditionSemaphore.Release]
    rw [hsub, if_neg (by omega)]

theorem SignalAndWait_signals_then_waits_witness :
    SignalAndWait 7 (some 0) (some 1) false 10 []
        { heap := fun p => if p = 0
            then PosixConditionBase.mutant { count_ := 1, owner_ := some 3 }
            else PosixConditionBase.event { signal_ := true, manual_reset_ := false },
          alertable_state_ := false }
      = (some (WaitResult.kFailed,
          { heap := fun p => if p = 0
              then PosixConditionBase.mutant { count_ := 1, owner_ := some 3 }
              else PosixConditionBase.event { signal_ := true, manual_reset_ := false },
            alertable_state_ := if false then false else false }),
         List.map (signal_handler_kThreadUserCallback (if false then true else false)) []) ∧
    SignalAndWait 3 (some 0) (some 1) false 10 []
        { heap := fun p => if p = 0
            then PosixConditionBase.mutant { count_ := 1, owner_ := some 3 }
            else PosixConditionBase.event { signal_ := true, manual_reset_ := false },
          alertable_state_ := false }
      = Wait 3 (some 1) false 10 []
          { heap := Function.update
              (fun p => if p = 0
                then PosixConditionBase.mutant { count_ := 1, owner_ := some 3 }
                else PosixConditionBase.event { signal_ := true, manual_reset_ := false })
              0
              (PosixConditionBase.Signal 3
                (PosixConditionBase.mutant { count_ := 1, owner_ := some 3 })).2,
            alertable_state_ := false } :=
  ⟨(SignalAndWait_signals_then_waits 7 0 1 false 10 []
      { heap := fun p => if p = 0
          then PosixConditionBase.mutant { count_ := 1, owner_ := some 3 }
          else PosixConditionBase.event { signal_ := true, manual_reset_ := false },
        alertable_state_ := false }).1 (by decide),
    (SignalAndWait_signals_then_waits 3 0 1 false 10 []
      { heap := fun p => if p = 0
          then PosixConditionBase.mutant { count_ := 1, owner_ := some 3 }
          else PosixConditionBase.event { signal_ := true, manual_reset_ := false },
        alertable_state_ := false }).2.1 (by decide)⟩

/-- Claim C15: `Wait`, `SignalAndWait` and `WaitMultiple` return `kFailed`
(`WaitMultiple`: `(kFailed, 0)`) as soon as one handle does not resolve, and
then nothing has changed: no object, and not the alertable flag, which was not
set for a moment either, every delivery during the call finding it as it was.
For `SignalAndWait` either handle may be the one that does not resolve; for
`WaitMultiple` it may stand anywhere in the list. -/
theorem invalid_handle_fails_without_effect (t : Nat) (is_alertable : Bool) (timeout : Int)
    (deliveries : List PosixConditionThread) (st : ThreadingState) :
    Wait t none is_alertable timeout deliveries st
      = (some (WaitResult.kFailed, st),
          deliveries.map (signal_handler_kThreadUserCallback st.alertable_state_)) ∧
    (∀ q : Option Nat,
      SignalAndWait t none q is_alertable timeout deliveries st
        = (some (WaitResult.kFailed, st),
            deliveries.map (signal_handler_kThreadUserCallback st.alertable_state_))) ∧
    (∀ p : Option Nat,
      SignalAndWait t p none is_alertable timeout deliveries st
        = (some (WaitResult.kFailed, st),
            deliveries.map (signal_handler_kThreadUserCallback st.alertable_state_))) ∧
    (∀ (wait_handles : List (Option Nat)) (wait_all : Bool), none ∈ wait_handles →
      WaitMultiple t wait_handles wait_all is_alertable timeout deliveries st
        = (some (WaitResult.kFailed, 0, st),
            deliveries.map (signal_handler_kThreadUserCallback st.alertable_state_))) := by
  refine ⟨rfl, ?_, ?_, ?_⟩
  · intro q
    cases q <;> rfl
  · intro p
    cases p <;> rfl
  · intro wait_handles wait_all hmem
    simp only [WaitMultiple, WaitMultiple_conditions_of_invalid wait_handles hmem]

theorem invalid_handle_fails_without_effect_witness :
    SignalAndWait 7 (some 0) none true 10 []
        { heap := fun _ => PosixConditionBase.event { signal_ := false, manual_reset_ := false },
          alertable_state_ := false }
      = (some (WaitResult.kFailed,
          { heap := fun _ =>
              PosixConditionBase.event { signal_ := false, manual_reset_ := false },
            alertable_state_ := false }),
         List.map (signal_handler_kThreadUserCallback false) []) ∧
    WaitMultiple 7 [some 0, none, some 1] true true 10 []
        { heap := fun _ => PosixConditionBase.event { signal_ := true, manual_reset_ := false },
          alertable_state_ := false }
      = (some (WaitResult.kFailed, 0,
          { heap := fun _ =>
              PosixConditionBase.event { signal_ := true, manual_reset_ := false },
            alertable_state_ := false }),
         List.map (signal_handler_kThreadUserCallback false) []) :=
  ⟨(invalid_handle_fails_without_effect 7 true 10 []
      { heap := fun _ => PosixConditionBase.event { signal_ := false, manual_reset_ := false },
        alertable_state_ := false }).2.2.1 (some 0),
    (invalid_handle_fails_without_effect 7 true 10 []
      { heap := fun _ => PosixConditionBase.event { signal_ := true, manual_reset_ := false },
        alertable_state_ := false }).2.2.2 [some 0, none, some 1] true (by decide)⟩


/-! ## Properties of the timer -/

theorem PosixConditionTimer.timer_settime_fields (due_time period : Int)
    (timer_settime_ok : Bool) (t : PosixConditionTimer) :
    (PosixConditionTimer.timer_settime due_time period timer_settime_ok t).2.signal_
      = t.signal_ ∧
    (PosixConditionTimer.timer_settime due_time period timer_settime_ok t).2.manual_reset_
      = t.manual_reset_ ∧
    (PosixConditionTimer.timer_settime due_time period timer_settime_ok t).2.timer_
      = t.timer_ ∧
    ((PosixConditionTimer.timer_settime due_time period timer_settime_ok t).1 = true →
      (PosixConditionTimer.timer_settime due_time period timer_settime_ok t).2.os_timers
        ≠ []) := by
  obtain ⟨cb, tm, sg, mr, os⟩ := t
  unfold PosixConditionTimer.timer_settime
  dsimp only
  split
  · rename_i hc
    refine ⟨rfl, rfl, rfl, ?_⟩
    intro _
    dsimp only
    cases os with
    | nil => simp at hc
    | cons o rest => simp
  · refine ⟨rfl, rfl, rfl, ?_⟩
    intro h
    simp at h

theorem PosixConditionTimer.Set_signal (due_time period : Int) (opt_callback : Option Nat)
    (timer_create_result : Option Nat) (timer_settime_ok : Bool) (t : PosixConditionTimer) :
    (PosixConditionTimer.Set due_time period opt_callback timer_create_result timer_settime_ok
      t).2.signal_ = false ∧
    (PosixConditionTimer.Set due_time period opt_callback timer_create_result timer_settime_ok
      t).2.manual_reset_ = t.manual_reset_ ∧
    ((PosixConditionTimer.Set due_time period opt_callback timer_create_result timer_settime_ok
      t).1 = true →
      (PosixConditionTimer.Set due_time period opt_callback timer_create_result
        timer_settime_ok t).2.os_timers ≠ []) := by
  obtain ⟨cb, tm, sg, mr, os⟩ := t
  unfold PosixConditionTimer.Set
  dsimp only
  split
  · cases timer_create_result with
    | none =>
      dsimp only
      refine ⟨rfl, rfl, ?_⟩
      intro h
      simp at h
    | some timerid =>
      dsimp only
      have h := PosixConditionTimer.timer_settime_fields due_time period timer_settime_ok
        { callback_ := opt_callback, timer_ := timerid, signal_ := false, manual_reset_ := mr,
          os_timers := { timerid := timerid, it_value := 0, it_interval := 0 } :: os }
      exact ⟨h.1, h.2.1, h.2.2.2⟩
  · have h := PosixConditionTimer.timer_settime_fields due_time period timer_settime_ok
      { callback_ := opt_callback, timer_ := tm, signal_ := false, manual_reset_ := mr,
        os_timers := os }
    exact ⟨h.1, h.2.1, h.2.2.2⟩

theorem PosixConditionTimer.Expire_of_timer (t : PosixConditionTimer)
    (h : t.os_timers ≠ []) :
    (PosixConditionTimer.Expire t).1
      = { callback_ := t.callback_, timer_ := t.timer_, signal_ := true,
          manual_reset_ := t.manual_reset_, os_timers := t.os_timers } := by
  obtain ⟨cb, tm, sg, mr, os⟩ := t
  cases os with
  | nil => exact absurd rfl h
  | cons o rest => rfl

theorem PosixConditionTimer.Wait_of_timer_signal (timeout : Int) (t : PosixConditionTimer)
    (h : t.signal_ = true) :
    PosixConditionTimer.Wait timeout t
      = some (WaitResult.kSuccess, PosixConditionTimer.post_execution t) := by
  unfold PosixConditionTimer.Wait PosixConditionBase.Wait
  rw [if_pos (by simpa [PosixConditionTimer.signaled] using h)]

theorem PosixConditionTimer.Wait_of_timer_not_signal (timeout : Int) (t : PosixConditionTimer)
    (h : t.signal_ = false) :
    PosixConditionTimer.Wait timeout t
      = if timeout = milliseconds_max then none else some (WaitResult.kTimeout, t) := by
  unfold PosixConditionTimer.Wait PosixConditionBase.Wait
  rw [if_neg (by simp [PosixConditionTimer.signaled, h])]

theorem PosixConditionTimer.Wait_of_timer_not_signal_ne_success (timeout : Int)
    (t s : PosixConditionTimer) (h : t.signal_ = false) :
    PosixConditionTimer.Wait timeout t ≠ some (WaitResult.kSuccess, s) := by
  rw [PosixConditionTimer.Wait_of_timer_not_signal timeout t h]
  by_cases hfin : timeout = milliseconds_max
  · rw [if_pos hfin]; intro h2; cases h2
  · rw [if_neg hfin]; intro h2; cases h2

theorem PosixConditionTimer.WaitTimes_of_manual_timer (timeout : Int) (k : Nat)
    (t : PosixConditionTimer) (hman : t.manual_reset_ = true) (hsig : t.signal_ = true) :
    PosixConditionTimer.WaitTimes timeout k t = some t := by
  induction k with
  | zero => rfl
  | succ k ih =>
    simp only [PosixConditionTimer.WaitTimes]
    rw [PosixConditionTimer.Wait_of_timer_signal timeout t hsig]
    have : PosixConditionTimer.post_execution t = t := by
      simp [PosixConditionTimer.post_execution, hman]
    rw [this]
    exact ih

/-- Claim C16: `Set` (`SetOnce` is `Set` with period `0`) leaves the timer
unsignaled, whatever it was, whatever `timer_t` the system gives and whether or
not the system calls succeed.  After a `Set` that returned `true` and one
expiry, call the timer `u`: it is signaled; when it is a manual-reset timer
every wait on `u` returns `kSuccess` and leaves `u` as it is, for any number of
waits, and a new `Set` clears the signal; when it is a synchronization timer the
first wait returns `kSuccess` and clears the signal, and a second wait never
returns `kSuccess` and returns `kTimeout` for a finite timeout. -/
theorem Timer_reset_modes (t : PosixConditionTimer) (due_time period : Int)
    (opt_callback : Option Nat) (timer_create_result : Option Nat) (timer_settime_ok : Bool) :
    PosixTimer.SetOnce due_time opt_callback timer_create_result timer_settime_ok t
      = PosixConditionTimer.Set due_time 0 opt_callback timer_create_result timer_settime_ok
          t ∧
    (PosixConditionTimer.Set due_time period opt_callback timer_create_result timer_settime_ok
      t).2.signal_ = false ∧
    (∀ u : PosixConditionTimer,
      (PosixConditionTimer.Set due_time period opt_callback timer_create_result
        timer_settime_ok t).1 = true →
      u = (PosixConditionTimer.Expire
        (PosixConditionTimer.Set due_time period opt_callback timer_create_result
          timer_settime_ok t).2).1 →
      u.signal_ = true ∧
      (t.manual_reset_ = true → ∀ (k : Nat) (timeout : Int),
        PosixConditionTimer.WaitTimes timeout k u = some u ∧
        PosixConditionTimer.Wait timeout u = some (WaitResult.kSuccess, u)) ∧
      (t.manual_reset_ = false → ∀ (timeout1 timeout2 : Int),
        PosixConditionTimer.Wait timeout1 u
          = some (WaitResult.kSuccess,
              { callback_ := u.callback_, timer_ := u.timer_, signal_ := false,
                manual_reset_ := false, os_timers := u.os_timers }) ∧
        (∀ s, PosixConditionTimer.Wait timeout2
            { callback_ := u.callback_, timer_ := u.timer_, signal_ := false,
              manual_reset_ := false, os_timers := u.os_timers }
          ≠ some (WaitResult.kSuccess, s)) ∧
        (timeout2 ≠ milliseconds_max →
          PosixConditionTimer.Wait timeout2
              { callback_ := u.callback_, timer_ := u.timer_, signal_ := false,
                manual_reset_ := false, os_timers := u.os_timers }
            = some (WaitResult.kTimeout,
                { callback_ := u.callback_, timer_ := u.timer_, signal_ := false,
                  manual_reset_ := false, os_timers := u.os_timers })))) := by
  have hset := PosixConditionTimer.Set_signal due_time period opt_callback timer_create_result
    timer_settime_ok t
  refine ⟨rfl, hset.1, ?_⟩
  intro u hok hu
  have hexp := PosixConditionTimer.Expire_of_timer _ (hset.2.2 hok)
  rw [← hu] at hexp
  have hsig : u.signal_ = true := by rw [hexp]
  have hman : u.manual_reset_ = t.manual_reset_ := by rw [hexp]; exact hset.2.1
  refine ⟨hsig, ?_, ?_⟩
  · intro hm k timeout
    have hum : u.manual_reset_ = true := by rw [hman, hm]
    refine ⟨PosixConditionTimer.WaitTimes_of_manual_timer timeout k u hum hsig, ?_⟩
    rw [PosixConditionTimer.Wait_of_timer_signal timeout u hsig]
    simp [PosixConditionTimer.post_execution, hum]
  · intro hm timeout1 timeout2
    have hum : u.manual_reset_ = false := by rw [hman, hm]
    refine ⟨?_, ?_, ?_⟩
    · rw [PosixConditionTimer.Wait_of_timer_signal timeout1 u hsig]
      simp [PosixConditionTimer.post_execution, hum]
    · intro s
      exact PosixConditionTimer.Wait_of_timer_not_signal_ne_success timeout2 _ s rfl
    · intro hfin
      rw [PosixConditionTimer.Wait_of_timer_not_signal timeout2 _ rfl, if_neg hfin]

theorem Timer_reset_modes_witness :
    PosixConditionTimer.WaitTimes 1 2
        (PosixConditionTimer.Expire
          (PosixConditionTimer.Set 1000000 0 none (some 0) true
            Timer.CreateManualResetTimer).2).1
      = some (PosixConditionTimer.Expire
          (PosixConditionTimer.Set 1000000 0 none (some 0) true
            Timer.CreateManualResetTimer).2).1 ∧
    PosixConditionTimer.Wait 1
        { callback_ := (PosixConditionTimer.Expire
            (PosixConditionTimer.Set 1000000 0 none (some 3) true
              Timer.CreateSynchronizationTimer).2).1.callback_,
          timer_ := (PosixConditionTimer.Expire
            (PosixConditionTimer.Set 1000000 0 none (some 3) true
              Timer.CreateSynchronizationTimer).2).1.timer_,
          signal_ := false, manual_reset_ := false,
          os_timers := (PosixConditionTimer.Expire
            (PosixConditionTimer.Set 1000000 0 none (some 3) true
              Timer.CreateSynchronizationTimer).2).1.os_timers }
      = some (WaitResult.kTimeout,
          { callback_ := (PosixConditionTimer.Expire
              (PosixConditionTimer.Set 1000000 0 none (some 3) true
                Timer.CreateSynchronizationTimer).2).1.callback_,
            timer_ := (PosixConditionTimer.Expire
              (PosixConditionTimer.Set 1000000 0 none (some 3) true
                Timer.CreateSynchronizationTimer).2).1.timer_,
            signal_ := false, manual_reset_ := false,
            os_timers := (PosixConditionTimer.Expire
              (PosixConditionTimer.Set 1000000 0 none (some 3) true
                Timer.CreateSynchronizationTimer).2).1.os_timers }) :=
  ⟨(((Timer_reset_modes Timer.CreateManualResetTimer 1000000 0 none (some 0) true).2.2
      _ (by decide) rfl).2.1 rfl 2 1).1,
    (((Timer_reset_modes Timer.CreateSynchronizationTimer 1000000 0 none (some 3) true).2.2
      _ (by decide) rfl).2.2 rfl 2 1).2.2 (by decide)⟩

/-- A new timer has no POSIX timer, so its handle names them all. -/
theorem PosixConditionTimer.handle_names_timers_mk_ (manual_reset : Bool) :
    PosixConditionTimer.handle_names_timers (PosixConditionTimer.mk_ manual_reset) := by
  intro os hos
  cases hos

theorem PosixConditionTimer.handle_names_timers_timer_settime (due_time period : Int)
    (timer_settime_ok : Bool) (t : PosixConditionTimer)
    (h : PosixConditionTimer.handle_names_timers t) :
    PosixConditionTimer.handle_names_timers
      (PosixConditionTimer.timer_settime due_time period timer_settime_ok t).2 := by
  obtain ⟨cb, tm, sg, mr, os⟩ := t
  unfold PosixConditionTimer.timer_settime
  dsimp only
  split
  · intro o ho
    dsimp only at ho ⊢
    obtain ⟨o1, ho1, hf⟩ := List.mem_map.mp ho
    have h1 := h o1 ho1
    dsimp only at h1
    refine ⟨?_, h1.2⟩
    rw [← hf]
    split
    · exact h1.1
    · exact h1.1
  · exact h

/-- The handle goes on naming the timers of the object through every `Set`
in which `timer_create` fails or gives a `timer_t` other than `0`. -/
theorem PosixConditionTimer.handle_names_timers_Set (due_time period : Int)
    (opt_callback : Option Nat) (timer_create_result : Option Nat) (timer_settime_ok : Bool)
    (t : PosixConditionTimer) (h : PosixConditionTimer.handle_names_timers t)
    (hcreate : timer_create_result ≠ some 0) :
    PosixConditionTimer.handle_names_timers
      (PosixConditionTimer.Set due_time period opt_callback timer_create_result
        timer_settime_ok t).2 := by
  obtain ⟨cb, tm, sg, mr, os⟩ := t
  unfold PosixConditionTimer.Set
  dsimp only
  split
  · rename_i htm
    have hos : os = [] := by
      cases os with
      | nil => rfl
      | cons o rest => exact absurd htm (h o (List.mem_cons_self _ _)).2
    subst hos
    cases timer_create_result with
    | none =>
      intro o ho
      cases ho
    | some timerid =>
      dsimp only
      apply PosixConditionTimer.handle_names_timers_timer_settime
      intro o ho
      rcases List.mem_cons.mp ho with h1 | h1
      · subst h1
        refine ⟨rfl, ?_⟩
        intro h0
        apply hcreate
        dsimp only at h0
        rw [h0]
      · cases h1
  · apply PosixConditionTimer.handle_names_timers_timer_settime
    exact h

/-- On a finished thread `Resume` and `Terminate` leave the state `kFinished`. -/
theorem PosixConditionThread.Finished_kept_by_Resume_and_Terminate (t : PosixConditionThread)
    (hfin : t.state_ = PosixConditionThread.State.kFinished) :
    (∀ out, PosixConditionThread.Resume out t = some (false, out.map (fun _ => 0), t)) ∧
    (∀ exit_code, (PosixConditionThread.Terminate exit_code t).state_
      = PosixConditionThread.State.kFinished) := by
  obtain ⟨th, sg, ec, st, c, cb⟩ := t
  simp only at hfin
  subst hfin
  refine ⟨fun out => rfl, ?_⟩
  intro exit_code
  unfold PosixConditionThread.Terminate
  dsimp only
  split <;> rfl

/-- Claim C18, evaluated on the code: a running thread is terminated, or
returns from its start routine, and is `kFinished`; `Suspend()` then sets the
state to `kSuspended`, and `WaitSuspended()` sets it to `kRunning`. -/
theorem Thread_Suspend_leaves_Finished :
    (PosixThread.Terminate (-1)
      { thread_ := 5, signaled_ := false, exit_code_ := 0,
        state_ := PosixConditionThread.State.kRunning, suspend_count_ := 0,
        user_callback_ := none }).state_ = PosixConditionThread.State.kFinished ∧
    (PosixConditionThread.Suspend none 0
      (PosixThread.Terminate (-1)
        { thread_ := 5, signaled_ := false, exit_code_ := 0,
          state_ := PosixConditionThread.State.kRunning, suspend_count_ := 0,
          user_callback_ := none })).map (fun r => r.2.2.state_)
      = some PosixConditionThread.State.kSuspended ∧
    (PosixConditionThread.Suspend none 0
      (PosixConditionThread.ThreadStartRoutine_end
        { thread_ := 5, signaled_ := false, exit_code_ := 0,
          state_ := PosixConditionThread.State.kRunning, suspend_count_ := 0,
          user_callback_ := none })).map (fun r => r.2.2.state_)
      = some PosixConditionThread.State.kSuspended ∧
    (PosixConditionThread.WaitSuspended
      (PosixThread.Terminate (-1)
        { thread_ := 5, signaled_ := false, exit_code_ := 0,
          state_ := PosixConditionThread.State.kRunning, suspend_count_ := 0,
          user_callback_ := none })).map (fun r => r.state_)
      = some PosixConditionThread.State.kRunning := by
  decide

/-- Claim C19: `Terminate(exit_code)` on a thread that is not yet joined leaves
it `kFinished`, with the exit code recorded and the object signaled, and
nothing else changed; a wait on it then returns `kSuccess` and joins the host
thread; a second `Terminate(exit_code)` changes nothing; and after the join a
`Terminate` with any exit code changes nothing, so that the exit code and the
signaled flag stay. -/
theorem Thread_Terminate (t : PosixConditionThread) (exit_code : Int) (timeout : Int)
    (hjoin : t.thread_ ≠ 0) :
    PosixThread.Terminate exit_code t
      = { thread_ := t.thread_, signaled_ := true, exit_code_ := exit_code,
          state_ := PosixConditionThread.State.kFinished,
          suspend_count_ := t.suspend_count_, user_callback_ := t.user_callback_ } ∧
    PosixConditionThread.Wait timeout (PosixThread.Terminate exit_code t)
      = some (WaitResult.kSuccess,
          { thread_ := 0, signaled_ := true, exit_code_ := exit_code,
            state_ := PosixConditionThread.State.kFinished,
            suspend_count_ := t.suspend_count_, user_callback_ := t.user_callback_ }) ∧
    PosixThread.Terminate exit_code (PosixThread.Terminate exit_code t)
      = PosixThread.Terminate exit_code t ∧
    (∀ exit_code2 : Int,
      PosixThread.Terminate exit_code2
          { thread_ := 0, signaled_ := true, exit_code_ := exit_code,
            state_ := PosixConditionThread.State.kFinished,
            suspend_count_ := t.suspend_count_, user_callback_ := t.user_callback_ }
        = { thread_ := 0, signaled_ := true, exit_code_ := exit_code,
            state_ := PosixConditionThread.State.kFinished,
            suspend_count_ := t.suspend_count_, user_callback_ := t.user_callback_ }) := by
  obtain ⟨th, sg, ec, st, c, cb⟩ := t
  simp only at hjoin
  have hterm : PosixThread.Terminate exit_code
      { thread_ := th, signaled_ := sg, exit_code_ := ec, state_ := st, suspend_count_ := c,
        user_callback_ := cb }
      = { thread_ := th, signaled_ := true, exit_code_ := exit_code,
          state_ := PosixConditionThread.State.kFinished,
          suspend_count_ := c, user_callback_ := cb } := by
    unfold PosixThread.Terminate PosixConditionThread.Terminate
    dsimp only
    rw [if_neg hjoin]
  have hterm2 : PosixThread.Terminate exit_code
      { thread_ := th, signaled_ := true, exit_code_ := exit_code,
        state_ := PosixConditionThread.State.kFinished, suspend_count_ := c,
        user_callback_ := cb }
      = { thread_ := th, signaled_ := true, exit_code_ := exit_code,
          state_ := PosixConditionThread.State.kFinished,
          suspend_count_ := c, user_callback_ := cb } := by
    unfold PosixThread.Terminate PosixConditionThread.Terminate
    dsimp only
    rw [if_neg hjoin]
  refine ⟨hterm, ?_, ?_, ?_⟩
  · rw [hterm]
    simp [PosixConditionThread.Wait, PosixConditionBase.Wait, PosixConditionThread.signaled,
      PosixConditionThread.post_execution, hjoin]
  · rw [hterm, hterm2]
  · intro exit_code2
    simp [PosixThread.Terminate, PosixConditionThread.Terminate]

theorem Thread_Terminate_witness :
    PosixConditionThread.Wait 50
        (PosixThread.Terminate (-1)
          { thread_ := 5, signaled_ := false, exit_code_ := 0,
            state_ := PosixConditionThread.State.kRunning, suspend_count_ := 0,
            user_callback_ := none })
      = some (WaitResult.kSuccess,
          { thread_ := 0, signaled_ := true, exit_code_ := -1,
            state_ := PosixConditionThread.State.kFinished,
            suspend_count_ := 0, user_callback_ := none }) :=
  (Thread_Terminate
    { thread_ := 5, signaled_ := false, exit_code_ := 0,
      state_ := PosixConditionThread.State.kRunning, suspend_count_ := 0,
      user_callback_ := none } (-1) 50 (by decide)).2.1

theorem PosixConditionThread.Suspend_of_started (out : Option Nat) (r : Int)
    (th : Nat) (sg : Bool) (ec : Int) (st : PosixConditionThread.State) (c : Nat)
    (cb : Option Nat) (hst : st ≠ PosixConditionThread.State.kUninitialized) :
    PosixConditionThread.Suspend out r
        { thread_ := th, signaled_ := sg, exit_code_ := ec, state_ := st,
          suspend_count_ := c, user_callback_ := cb }
      = some (decide (r = 0), out.map (fun _ => c),
          { thread_ := th, signaled_ := sg, exit_code_ := ec,
            state_ := PosixConditionThread.State.kSuspended,
            suspend_count_ := (c + 1) % 2 ^ 32, user_callback_ := cb }) := by
  unfold PosixConditionThread.Suspend PosixConditionThread.WaitStarted
  dsimp only
  rw [if_pos (by simpa using hst)]

theorem PosixConditionThread.Resume_of_suspended (out : Option Nat)
    (th : Nat) (sg : Bool) (ec : Int) (c : Nat) (cb : Option Nat) :
    PosixConditionThread.Resume out
        { thread_ := th, signaled_ := sg, exit_code_ := ec,
          state_ := PosixConditionThread.State.kSuspended,
          suspend_count_ := c, user_callback_ := cb }
      = some (true, out.map (fun _ => c),
          { thread_ := th, signaled_ := sg, exit_code_ := ec,
            state_ := PosixConditionThread.State.kSuspended,
            suspend_count_ := (c + 2 ^ 32 - 1) % 2 ^ 32, user_callback_ := cb }) := by
  unfold PosixConditionThread.Resume PosixConditionThread.WaitStarted
  dsimp only
  rw [if_pos (by decide), if_neg (by decide)]

/-- The calls of `Suspend` report the counts `c`, `c + 1`, ... modulo `2^32`. -/
theorem PosixConditionThread.SuspendTimes_of_started (r : Nat → Int)
    (th : Nat) (sg : Bool) (ec : Int) (st : PosixConditionThread.State) (c : Nat)
    (cb : Option Nat) (hst : st ≠ PosixConditionThread.State.kUninitialized) (k : Nat) :
    PosixConditionThread.SuspendTimes r k
        { thread_ := th, signaled_ := sg, exit_code_ := ec, state_ := st,
          suspend_count_ := c % 2 ^ 32, user_callback_ := cb }
      = some ((List.range k).map (fun j => (c + j) % 2 ^ 32),
          { thread_ := th, signaled_ := sg, exit_code_ := ec,
            state_ := if k = 0 then st else PosixConditionThread.State.kSuspended,
            suspend_count_ := (c + k) % 2 ^ 32, user_callback_ := cb }) := by
  induction k with
  | zero => rfl
  | succ k ih =>
    rw [PosixConditionThread.SuspendTimes, ih]
    dsimp only
    have hst2 : (if k = 0 then st else PosixConditionThread.State.kSuspended)
        ≠ PosixConditionThread.State.kUninitialized := by
      split
      · exact hst
      · intro h; cases h
    rw [PosixConditionThread.Suspend_of_started (some 0) (r k) th sg ec _ _ cb hst2]
    dsimp only [Option.map]
    have hcount : ((c + k) % 2 ^ 32 + 1) % 2 ^ 32 = (c + (k + 1)) % 2 ^ 32 := by omega
    rw [hcount, List.range_succ, List.map_append, List.map_singleton,
      if_neg (Nat.succ_ne_zero k)]

/-- The first `j ≤ c` calls of `Resume` on a suspended thread with count `c`
each return `true` and report `c`, `c - 1`, ... -/
theorem PosixConditionThread.ResumeTimes_of_suspended
    (th : Nat) (sg : Bool) (ec : Int) (c : Nat) (cb : Option Nat) (hc : c < 2 ^ 32)
    (j : Nat) (hj : j ≤ c) :
    PosixConditionThread.ResumeTimes j
        { thread_ := th, signaled_ := sg, exit_code_ := ec,
          state_ := PosixConditionThread.State.kSuspended,
          suspend_count_ := c, user_callback_ := cb }
      = some ((List.range j).map (fun i => (true, c - i)),
          { thread_ := th, signaled_ := sg, exit_code_ := ec,
            state_ := PosixConditionThread.State.kSuspended,
            suspend_count_ := c - j, user_callback_ := cb }) := by
  induction j with
  | zero => rfl
  | succ j ih =>
    rw [PosixConditionThread.ResumeTimes, ih (by omega)]
    dsimp only
    rw [PosixConditionThread.Resume_of_suspended (some 0) th sg ec _ cb]
    dsimp only [Option.map]
    have hcount : (c - j + 2 ^ 32 - 1) % 2 ^ 32 = c - (j + 1) := by omega
    rw [hcount, List.range_succ, List.map_append, List.map_singleton]

/-- Claim C20, as stated, fails at `k = 2^32`: the count is a `uint32_t`, so
after `2^32` calls of `Suspend` on a running thread it is `0` again; the first
`Resume` then reports the previous count `0`, not `2^32`, and the thread is
not held by `WaitSuspended`. -/
theorem Thread_suspend_count_wraps_at_uint32 :
    (PosixConditionThread.SuspendTimes (fun _ => 0) (2 ^ 32)
        { thread_ := 5, signaled_ := false, exit_code_ := 0,
          state_ := PosixConditionThread.State.kRunning, suspend_count_ := 0,
          user_callback_ := none }).map Prod.snd
      = some { thread_ := 5, signaled_ := false, exit_code_ := 0,
               state_ := PosixConditionThread.State.kSuspended, suspend_count_ := 0,
               user_callback_ := none } ∧
    (PosixConditionThread.Resume (some 0)
        { thread_ := 5, signaled_ := false, exit_code_ := 0,
          state_ := PosixConditionThread.State.kSuspended, suspend_count_ := 0,
          user_callback_ := none }).map (fun r => (r.1, r.2.1))
      = some (true, some 0) ∧
    PosixConditionThread.WaitSuspended
        { thread_ := 5, signaled_ := false, exit_code_ := 0,
          state_ := PosixConditionThread.State.kSuspended, suspend_count_ := 0,
          user_callback_ := none }
      = some { thread_ := 5, signaled_ := false, exit_code_ := 0,
               state_ := PosixConditionThread.State.kRunning, suspend_count_ := 0,
               user_callback_ := none } := by
  refine ⟨?_, by decide, by decide⟩
  have h := PosixConditionThread.SuspendTimes_of_started (fun _ => 0) 5 false 0
    PosixConditionThread.State.kRunning 0 none (by decide) (2 ^ 32)
  have hzero : (0 : Nat) % 2 ^ 32 = 0 := Nat.zero_mod _
  have hwrap : (0 + 2 ^ 32) % 2 ^ 32 = 0 := by norm_num
  have hne : ¬ ((2 : Nat) ^ 32 = 0) := by norm_num
  rw [hzero, hwrap, if_neg hne] at h
  rw [h]
  rfl

/-- Claim C20, amended to the range of the `uint32_t` count: on a running
thread with suspend count `0`, for every `k` with `1 ≤ k < 2^32`, the `k` calls
of `Suspend` report the previous counts `0, 1, ..., k-1` and leave the thread
suspended with count `k`; then the first `j ≤ k` calls of `Resume` each return
`true`, report `k, k-1, ...` and leave count `k - j`; `WaitSuspended` holds the
thread while the count is above `0`, that is after fewer than `k` calls of
`Resume`, and lets it continue, as `kRunning`, after the `k`-th. -/
theorem Thread_nested_suspend_resume (t : PosixConditionThread) (r : Nat → Int) (k : Nat)
    (hrun : t.state_ = PosixConditionThread.State.kRunning) (hzero : t.suspend_count_ = 0)
    (hk : 1 ≤ k) (hk32 : k < 2 ^ 32) :
    PosixConditionThread.SuspendTimes r k t
      = some (List.range k, PosixConditionThread.suspendedWith t k) ∧
    (∀ j, j ≤ k →
      PosixConditionThread.ResumeTimes j (PosixConditionThread.suspendedWith t k)
        = some ((List.range j).map (fun i => (true, k - i)),
            PosixConditionThread.suspendedWith t (k - j))) ∧
    (∀ j, j < k →
      PosixConditionThread.WaitSuspended (PosixConditionThread.suspendedWith t (k - j))
        = none) ∧
    PosixConditionThread.WaitSuspended (PosixConditionThread.suspendedWith t (k - k))
      = some { thread_ := t.thread_, signaled_ := t.signaled_, exit_code_ := t.exit_code_,
               state_ := PosixConditionThread.State.kRunning, suspend_count_ := 0,
               user_callback_ := t.user_callback_ } := by
  obtain ⟨th, sg, ec, st, c, cb⟩ := t
  simp only at hrun hzero
  subst hrun
  subst hzero
  refine ⟨?_, ?_, ?_, ?_⟩
  · have h := PosixConditionThread.SuspendTimes_of_started r th sg ec
      PosixConditionThread.State.kRunning 0 cb (by decide) k
    have hzero : (0 : Nat) % 2 ^ 32 = 0 := Nat.zero_mod _
    have hkmod : (0 + k) % 2 ^ 32 = k := by omega
    have hmap : (List.range k).map (fun j => (0 + j) % 2 ^ 32) = List.range k := by
      have : ∀ j ∈ List.range k, (fun j => (0 + j) % 2 ^ 32) j = id j := by
        intro j hj
        have hjk : j < k := List.mem_range.mp hj
        show (0 + j) % 2 ^ 32 = j
        omega
      rw [List.map_congr_left this, List.map_id]
    rw [hzero, hkmod, hmap, if_neg (by omega)] at h
    rw [h]
    rfl
  · intro j hj
    exact PosixConditionThread.ResumeTimes_of_suspended th sg ec k cb hk32 j hj
  · intro j hj
    unfold PosixConditionThread.WaitSuspended PosixConditionThread.suspendedWith
    dsimp only
    rw [if_neg (by omega)]
  · unfold PosixConditionThread.WaitSuspended PosixConditionThread.suspendedWith
    dsimp only
    rw [if_pos (by omega)]
    simp

theorem Thread_nested_suspend_resume_witness :
    PosixConditionThread.SuspendTimes (fun _ => 0) 3
        { thread_ := 5, signaled_ := false, exit_code_ := 0,
          state_ := PosixConditionThread.State.kRunning, suspend_count_ := 0,
          user_callback_ := none }
      = some (List.range 3,
          PosixConditionThread.suspendedWith
            { thread_ := 5, signaled_ := false, exit_code_ := 0,
              state_ := PosixConditionThread.State.kRunning, suspend_count_ := 0,
              user_callback_ := none } 3) ∧
    PosixConditionThread.ResumeTimes 3
        (PosixConditionThread.suspendedWith
          { thread_ := 5, signaled_ := false, exit_code_ := 0,
            state_ := PosixConditionThread.State.kRunning, suspend_count_ := 0,
            user_callback_ := none } 3)
      = some ((List.range 3).map (fun i => (true, 3 - i)),
          PosixConditionThread.suspendedWith
            { thread_ := 5, signaled_ := false, exit_code_ := 0,
              state_ := PosixConditionThread.State.kRunning, suspend_count_ := 0,
              user_callback_ := none } (3 - 3)) :=
  ⟨(Thread_nested_suspend_resume
      { thread_ := 5, signaled_ := false, exit_code_ := 0,
        state_ := PosixConditionThread.State.kRunning, suspend_count_ := 0,
        user_callback_ := none } (fun _ => 0) 3 rfl rfl (by decide) (by norm_num)).1,
    (Thread_nested_suspend_resume
      { thread_ := 5, signaled_ := false, exit_code_ := 0,
        state_ := PosixConditionThread.State.kRunning, suspend_count_ := 0,
        user_callback_ := none } (fun _ => 0) 3 rfl rfl (by decide) (by norm_num)).2.1 3
      (le_refl _)⟩


/-! ## Properties of signals, callbacks and the empty wait -/

theorem WaitMultiple_conditions_map_some (conditions : List Nat) :
    WaitMultiple_conditions (conditions.map some) = some conditions := by
  induction conditions with
  | nil => rfl
  | cons p rest ih => simp only [List.map, WaitMultiple_conditions, ih]

/-- What the deliveries during a `Wait` on a handle that resolves do, and the
flag when it returns: it returns when the wait on the object does. -/
theorem Wait_deliveries (this_thread p : Nat) (is_alertable : Bool) (timeout : Int)
    (deliveries : List PosixConditionThread) (st : ThreadingState) :
    (Wait this_thread (some p) is_alertable timeout deliveries st).2
      = deliveries.map (signal_handler_kThreadUserCallback
          (if is_alertable then true else st.alertable_state_)) ∧
    (Wait this_thread (some p) is_alertable timeout deliveries st).1.map
        (fun r => r.2.alertable_state_)
      = (PosixConditionBase.Wait (PosixConditionBase.signaled this_thread)
          (PosixConditionBase.post_execution this_thread) timeout (st.heap p)).map
          (fun _ => if is_alertable then false else st.alertable_state_) := by
  obtain ⟨heap, flag⟩ := st
  cases is_alertable <;>
    simp only [Wait, Bool.false_eq_true, if_false, if_true] <;>
    split <;> simp_all

theorem SignalAndWait_deliveries (this_thread p q : Nat) (is_alertable : Bool) (timeout : Int)
    (deliveries : List PosixConditionThread) (st : ThreadingState) :
    (SignalAndWait this_thread (some p) (some q) is_alertable timeout deliveries st).2
      = deliveries.map (signal_handler_kThreadUserCallback
          (if is_alertable then true else st.alertable_state_)) ∧
    (SignalAndWait this_thread (some p) (some q) is_alertable timeout deliveries st).1.map
        (fun r => r.2.alertable_state_)
      = if (PosixConditionBase.Signal this_thread (st.heap p)).1 then
          (PosixConditionBase.Wait (PosixConditionBase.signaled this_thread)
            (PosixConditionBase.post_execution this_thread) timeout
            (Function.update st.heap p
              (PosixConditionBase.Signal this_thread (st.heap p)).2 q)).map
            (fun _ => if is_alertable then false else st.alertable_state_)
        else some (if is_alertable then false else st.alertable_state_) := by
  obtain ⟨heap, flag⟩ := st
  cases is_alertable <;>
    simp only [SignalAndWait, Bool.false_eq_true, if_false, if_true] <;>
    split <;> try split
  all_goals simp_all

theorem WaitMultiple_deliveries (this_thread : Nat) (conditions : List Nat)
    (wait_all is_alertable : Bool) (timeout : Int)
    (deliveries : List PosixConditionThread) (st : ThreadingState) :
    (WaitMultiple this_thread (conditions.map some) wait_all is_alertable timeout deliveries
      st).2
      = deliveries.map (signal_handler_kThreadUserCallback
          (if is_alertable then true else st.alertable_state_)) ∧
    (WaitMultiple this_thread (conditions.map some) wait_all is_alertable timeout deliveries
      st).1.map (fun r => r.2.2.alertable_state_)
      = (PosixConditionBase.WaitMultiple this_thread conditions wait_all timeout st.heap).map
          (fun _ => if is_alertable then false else st.alertable_state_) := by
  obtain ⟨heap, flag⟩ := st
  cases is_alertable <;>
    simp only [WaitMultiple, WaitMultiple_conditions_map_some, Bool.false_eq_true, if_false,
      if_true] <;>
    split <;> simp_all

/-- Claim C21: `QueueUserCallback` on a started thread stores the callback,
and a delivery of the user-callback signal then calls that callback exactly
when the flag `alertable_state_` of the thread it reaches is set, and does
nothing when it is not.  `AlertableSleep` sets the flag, and `Wait`,
`SignalAndWait` and `WaitMultiple` with `is_alertable = true` set it once their
handles have resolved, whatever it was: every delivery during them calls the
callback, and the flag is `false` when they return, which the waits do when the
wait on the objects does.  With `is_alertable = false`, and during a `Sleep`, a
flag that is `false` stays `false` and a delivery calls nothing. -/
theorem user_callback_only_when_alertable (q : PosixConditionThread) (callback : Nat)
    (hstarted : q.state_ ≠ PosixConditionThread.State.kUninitialized) :
    PosixConditionThread.QueueUserCallback (some callback) q
      = some { thread_ := q.thread_, signaled_ := q.signaled_, exit_code_ := q.exit_code_,
               state_ := q.state_, suspend_count_ := q.suspend_count_,
               user_callback_ := some callback } ∧
    (∀ t : PosixConditionThread,
      PosixConditionThread.QueueUserCallback (some callback) q = some t →
      (∀ alertable_state_ : Bool,
        signal_handler_kThreadUserCallback alertable_state_ t = CallbackEffect.called callback
          ↔ alertable_state_ = true) ∧
      signal_handler_kThreadUserCallback false t = CallbackEffect.nothing ∧
      (∀ n : Nat,
        AlertableSleep (List.replicate n t)
          = (SleepResult.kSuccess, false,
              List.replicate n (CallbackEffect.called callback))) ∧
      (∀ n : Nat,
        Sleep (List.replicate n t) false
          = (false, List.replicate n CallbackEffect.nothing)) ∧
      (∀ (this_thread p : Nat) (timeout : Int) (st : ThreadingState) (n : Nat),
        (Wait this_thread (some p) true timeout (List.replicate n t) st).2
          = List.replicate n (CallbackEffect.called callback) ∧
        (Wait this_thread (some p) true timeout (List.replicate n t) st).1.map
            (fun r => r.2.alertable_state_)
          = (PosixConditionBase.Wait (PosixConditionBase.signaled this_thread)
              (PosixConditionBase.post_execution this_thread) timeout (st.heap p)).map
              (fun _ => false) ∧
        (st.alertable_state_ = false →
          (Wait this_thread (some p) false timeout (List.replicate n t) st).2
            = List.replicate n CallbackEffect.nothing ∧
          (Wait this_thread (some p) false timeout (List.replicate n t) st).1.map
              (fun r => r.2.alertable_state_)
            = (PosixConditionBase.Wait (PosixConditionBase.signaled this_thread)
                (PosixConditionBase.post_execution this_thread) timeout (st.heap p)).map
                (fun _ => false))) ∧
      (∀ (this_thread p p2 : Nat) (timeout : Int) (st : ThreadingState) (n : Nat),
        (SignalAndWait this_thread (some p) (some p2) true timeout (List.replicate n t) st).2
          = List.replicate n (CallbackEffect.called callback) ∧
        (SignalAndWait this_thread (some p) (some p2) true timeout (List.replicate n t)
            st).1.map (fun r => r.2.alertable_state_)
          = (if (PosixConditionBase.Signal this_thread (st.heap p)).1 then
              (PosixConditionBase.Wait (PosixConditionBase.signaled this_thread)
                (PosixConditionBase.post_execution this_thread) timeout
                (Function.update st.heap p
                  (PosixConditionBase.Signal this_thread (st.heap p)).2 p2)).map
                (fun _ => false)
            else some false) ∧
        (st.alertable_state_ = false →
          (SignalAndWait this_thread (some p) (some p2) false timeout (List.replicate n t)
            st).2 = List.replicate n CallbackEffect.nothing ∧
          (SignalAndWait this_thread (some p) (some p2) false timeout (List.replicate n t)
              st).1.map (fun r => r.2.alertable_state_)
            = (if (PosixConditionBase.Signal this_thread (st.heap p)).1 then
                (PosixConditionBase.Wait (PosixConditionBase.signaled this_thread)
                  (PosixConditionBase.post_execution this_thread) timeout
                  (Function.update st.heap p
                    (PosixConditionBase.Signal this_thread (st.heap p)).2 p2)).map
                  (fun _ => false)
              else some false))) ∧
      (∀ (this_thread : Nat) (conditions : List Nat) (wait_all : Bool) (timeout : Int)
          (st : ThreadingState) (n : Nat),
        (WaitMultiple this_thread (conditions.map some) wait_all true timeout
          (List.replicate n t) st).2 = List.replicate n (CallbackEffect.called callback) ∧
        (WaitMultiple this_thread (conditions.map some) wait_all true timeout
            (List.replicate n t) st).1.map (fun r => r.2.2.alertable_state_)
          = (PosixConditionBase.WaitMultiple this_thread conditions wait_all timeout
              st.heap).map (fun _ => false) ∧
        (st.alertable_state_ = false →
          (WaitMultiple this_thread (conditions.map some) wait_all false timeout
            (List.replicate n t) st).2 = List.replicate n CallbackEffect.nothing ∧
          (WaitMultiple this_thread (conditions.map some) wait_all false timeout
              (List.replicate n t) st).1.map (fun r => r.2.2.alertable_state_)
            = (PosixConditionBase.WaitMultiple this_thread conditions wait_all timeout
                st.heap).map (fun _ => false)))) := by
  have hqueue : PosixConditionThread.QueueUserCallback (some callback) q
      = some { thread_ := q.thread_, signaled_ := q.signaled_, exit_code_ := q.exit_code_,
               state_ := q.state_, suspend_count_ := q.suspend_count_,
               user_callback_ := some callback } := by
    unfold PosixConditionThread.QueueUserCallback PosixConditionThread.WaitStarted
    rw [if_pos (by simpa using hstarted)]
  refine ⟨hqueue, ?_⟩
  intro t ht
  rw [hqueue] at ht
  have hcb : t.user_callback_ = some callback := by
    rw [← Option.some.inj ht]
  have hcall : PosixConditionThread.CallUserCallback t = CallbackEffect.called callback := by
    unfold PosixConditionThread.CallUserCallback
    rw [hcb]
  have hon : signal_handler_kThreadUserCallback true t = CallbackEffect.called callback := by
    simp [signal_handler_kThreadUserCallback, hcall]
  have hoff : signal_handler_kThreadUserCallback false t = CallbackEffect.nothing := rfl
  refine ⟨?_, hoff, ?_, ?_, ?_, ?_, ?_⟩
  · intro a
    cases a with
    | false => simp [hoff]
    | true => simp [hon]
  · intro n
    simp [AlertableSleep, Sleep, hon]
  · intro n
    simp [Sleep, hoff]
  · intro this_thread p timeout st n
    have h1 := Wait_deliveries this_thread p true timeout (List.replicate n t) st
    have h2 := Wait_deliveries this_thread p false timeout (List.replicate n t) st
    refine ⟨?_, ?_, ?_⟩
    · rw [h1.1]; simp [hon]
    · rw [h1.2]; simp
    · intro hflag
      refine ⟨?_, ?_⟩
      · rw [h2.1]; simp [hflag, hoff]
      · rw [h2.2]; simp [hflag]
  · intro this_thread p p2 timeout st n
    have h1 := SignalAndWait_deliveries this_thread p p2 true timeout (List.replicate n t) st
    have h2 := SignalAndWait_deliveries this_thread p p2 false timeout (List.replicate n t) st
    refine ⟨?_, ?_, ?_⟩
    · rw [h1.1]; simp [hon]
    · rw [h1.2]; simp
    · intro hflag
      refine ⟨?_, ?_⟩
      · rw [h2.1]; simp [hflag, hoff]
      · rw [h2.2]; simp [hflag]
  · intro this_thread conditions wait_all timeout st n
    have h1 := WaitMultiple_deliveries this_thread conditions wait_all true timeout
      (List.replicate n t) st
    have h2 := WaitMultiple_deliveries this_thread conditions wait_all false timeout
      (List.replicate n t) st
    refine ⟨?_, ?_, ?_⟩
    · rw [h1.1]; simp [hon]
    · rw [h1.2]; simp
    · intro hflag
      refine ⟨?_, ?_⟩
      · rw [h2.1]; simp [hflag, hoff]
      · rw [h2.2]; simp [hflag]

theorem user_callback_only_when_alertable_witness :
    PosixConditionThread.QueueUserCallback (some 9)
        { thread_ := 5, signaled_ := false, exit_code_ := 0,
          state_ := PosixConditionThread.State.kRunning, suspend_count_ := 0,
          user_callback_ := none }
      = some { thread_ := 5, signaled_ := false, exit_code_ := 0,
               state_ := PosixConditionThread.State.kRunning, suspend_count_ := 0,
               user_callback_ := some 9 } ∧
    (Wait 7 (some 0) true 10
        (List.replicate 2
          { thread_ := 5, signaled_ := false, exit_code_ := 0,
            state_ := PosixConditionThread.State.kRunning, suspend_count_ := 0,
            user_callback_ := some 9 })
        { heap := fun _ => PosixConditionBase.event { signal_ := false, manual_reset_ := false },
          alertable_state_ := false }).2
      = List.replicate 2 (CallbackEffect.called 9) ∧
    (Wait 7 (some 0) false 10
        (List.replicate 2
          { thread_ := 5, signaled_ := false, exit_code_ := 0,
            state_ := PosixConditionThread.State.kRunning, suspend_count_ := 0,
            user_callback_ := some 9 })
        { heap := fun _ => PosixConditionBase.event { signal_ := false, manual_reset_ := false },
          alertable_state_ := false }).2
      = List.replicate 2 CallbackEffect.nothing :=
  ⟨(user_callback_only_when_alertable
      { thread_ := 5, signaled_ := false, exit_code_ := 0,
        state_ := PosixConditionThread.State.kRunning, suspend_count_ := 0,
        user_callback_ := none } 9 (by decide)).1,
    (((user_callback_only_when_alertable
      { thread_ := 5, signaled_ := false, exit_code_ := 0,
        state_ := PosixConditionThread.State.kRunning, suspend_count_ := 0,
        user_callback_ := none } 9 (by decide)).2 _ rfl).2.2.2.2.1 7 0 10
      { heap := fun _ => PosixConditionBase.event { signal_ := false, manual_reset_ := false },
        alertable_state_ := false } 2).1,
    ((((user_callback_only_when_alertable
      { thread_ := 5, signaled_ := false, exit_code_ := 0,
        state_ := PosixConditionThread.State.kRunning, suspend_count_ := 0,
        user_callback_ := none } 9 (by decide)).2 _ rfl).2.2.2.2.1 7 0 10
      { heap := fun _ => PosixConditionBase.event { signal_ := false, manual_reset_ := false },
        alertable_state_ := false } 2).2.2 rfl).1⟩

/-- Claim C22, evaluated on the code: on a running thread with count `0`,
`Suspend()` then `Resume()` leave the state `kSuspended` with count `0` until
the thread itself has run `WaitSuspended`; a second `Resume()` before that
returns `true`, reports the previous count `0` and wraps the count to
`2^32 - 1`, after which `WaitSuspended` holds the thread. -/
theorem Thread_Resume_wraps_suspend_count_below_zero :
    (PosixConditionThread.Suspend none 0
        { thread_ := 5, signaled_ := false, exit_code_ := 0,
          state_ := PosixConditionThread.State.kRunning, suspend_count_ := 0,
          user_callback_ := none }).map (fun r => r.2.2)
      = some { thread_ := 5, signaled_ := false, exit_code_ := 0,
               state_ := PosixConditionThread.State.kSuspended, suspend_count_ := 1,
               user_callback_ := none } ∧
    PosixConditionThread.Resume (some 7)
        { thread_ := 5, signaled_ := false, exit_code_ := 0,
          state_ := PosixConditionThread.State.kSuspended, suspend_count_ := 1,
          user_callback_ := none }
      = some (true, some 1,
          { thread_ := 5, signaled_ := false, exit_code_ := 0,
            state_ := PosixConditionThread.State.kSuspended, suspend_count_ := 0,
            user_callback_ := none }) ∧
    PosixConditionThread.Resume (some 7)
        { thread_ := 5, signaled_ := false, exit_code_ := 0,
          state_ := PosixConditionThread.State.kSuspended, suspend_count_ := 0,
          user_callback_ := none }
      = some (true, some 0,
          { thread_ := 5, signaled_ := false, exit_code_ := 0,
            state_ := PosixConditionThread.State.kSuspended, suspend_count_ := 4294967295,
            user_callback_ := none }) ∧
    PosixConditionThread.WaitSuspended
        { thread_ := 5, signaled_ := false, exit_code_ := 0,
          state_ := PosixConditionThread.State.kSuspended, suspend_count_ := 4294967295,
          user_callback_ := none } = none := by
  decide

/-- When the state is not `kSuspended`, a `Resume` on a started thread returns
`false`, reports `0` and changes nothing. -/
theorem PosixConditionThread.Resume_of_not_suspended (out : Option Nat)
    (t : PosixConditionThread)
    (hstarted : t.state_ ≠ PosixConditionThread.State.kUninitialized)
    (hns : t.state_ ≠ PosixConditionThread.State.kSuspended) :
    PosixConditionThread.Resume out t = some (false, out.map (fun _ => 0), t) := by
  unfold PosixConditionThread.Resume PosixConditionThread.WaitStarted
  rw [if_pos (by simpa using hstarted), if_pos hns]

/-- Claim C23, as stated, fails: `CompletionRoutine` does not clear the stored
callback.  On a timer set with callback `7`, the first expiry calls `7` and
leaves `7` stored, and a second expiry with no `Set` in between calls `7`
again. -/
theorem Timer_CompletionRoutine_keeps_callback :
    (PosixConditionTimer.CompletionRoutine
        (PosixConditionTimer.Set 1000000 10 (some 7) (some 1) true
          Timer.CreateSynchronizationTimer).2).2 = some 7 ∧
    (PosixConditionTimer.CompletionRoutine
        (PosixConditionTimer.Set 1000000 10 (some 7) (some 1) true
          Timer.CreateSynchronizationTimer).2).1.callback_ = some 7 ∧
    (PosixConditionTimer.CompletionRoutine
        (PosixConditionTimer.CompletionRoutine
          (PosixConditionTimer.Set 1000000 10 (some 7) (some 1) true
            Timer.CreateSynchronizationTimer).2).1).2 = some 7 := by
  decide

/-- Claim C23, amended: on a timer holding a callback, one run of
`CompletionRoutine` sets the signal, calls that callback once and leaves it
stored, changing nothing else; so a further run with no `Set` in between, such
as the next expiry of a repeating timer, calls the callback again. -/
theorem Timer_CompletionRoutine_calls_stored_callback (t : PosixConditionTimer)
    (callback : Nat) (hcb : t.callback_ = some callback) :
    PosixConditionTimer.CompletionRoutine t
      = ({ callback_ := some callback, timer_ := t.timer_, signal_ := true,
           manual_reset_ := t.manual_reset_, os_timers := t.os_timers }, some callback) ∧
    (PosixConditionTimer.CompletionRoutine (PosixConditionTimer.CompletionRoutine t).1).2
      = some callback ∧
    (t.os_timers ≠ [] →
      (PosixConditionTimer.Expire (PosixConditionTimer.Expire t).1).2 = some callback) := by
  obtain ⟨cb, tm, sg, mr, os⟩ := t
  simp only at hcb
  subst hcb
  refine ⟨rfl, rfl, ?_⟩
  intro htm
  cases os with
  | nil => exact absurd rfl htm
  | cons o rest => rfl

theorem Timer_CompletionRoutine_calls_stored_callback_witness :
    PosixConditionTimer.CompletionRoutine
        { callback_ := some 7, timer_ := 0, signal_ := false, manual_reset_ := true,
          os_timers := [] }
      = ({ callback_ := some 7, timer_ := 0, signal_ := true, manual_reset_ := true,
           os_timers := [] },
          some 7) :=
  (Timer_CompletionRoutine_calls_stored_callback
    { callback_ := some 7, timer_ := 0, signal_ := false, manual_reset_ := true,
      os_timers := [] } 7 rfl).1

/-- Claim C24, evaluated on the code: the test on the result of `sigaction` is
the wrong way round.  After a call in which `sigaction` returned `0` the
purpose is not recorded and the next call calls `sigaction` again; after a call
in which `sigaction` returned `-1` the purpose is recorded as installed and the
next call returns without calling `sigaction`. -/
theorem install_signal_handler_records_failure_not_success :
    (install_signal_handler SignalType.kTimer 0 (fun _ => false)).1 = true ∧
    (install_signal_handler SignalType.kTimer 0 (fun _ => false)).2 SignalType.kTimer
      = false ∧
    (install_signal_handler SignalType.kTimer 0
      (install_signal_handler SignalType.kTimer 0 (fun _ => false)).2).1 = true ∧
    (install_signal_handler SignalType.kTimer (-1) (fun _ => false)).2 SignalType.kTimer
      = true ∧
    (install_signal_handler SignalType.kTimer 0
      (install_signal_handler SignalType.kTimer (-1) (fun _ => false)).2).1 = false := by
  decide

/-- Claim C27: on an empty list of handles a wait-for-all returns `kSuccess`
at once, for every timeout, with the index `SIZE_MAX = 2^64 - 1` and no object
changed; a wait-for-any with a finite timeout returns `(kTimeout, 0)`, and with
the infinite timeout it does not return.  The same holds through the public
`WaitMultiple`. -/
theorem WaitMultiple_on_empty_list (t : Nat) (timeout : Int)
    (heap : Nat → PosixConditionBase) (is_alertable : Bool)
    (deliveries : List PosixConditionThread) (st : ThreadingState) :
    PosixConditionBase.WaitMultiple t [] true timeout heap
      = some (WaitResult.kSuccess, PosixConditionBase.SIZE_MAX, heap) ∧
    PosixConditionBase.SIZE_MAX = 2 ^ 64 - 1 ∧
    (timeout ≠ milliseconds_max →
      PosixConditionBase.WaitMultiple t [] false timeout heap
        = some (WaitResult.kTimeout, 0, heap)) ∧
    PosixConditionBase.WaitMultiple t [] false milliseconds_max heap = none ∧
    WaitMultiple t [] true is_alertable timeout deliveries st
      = (some (WaitResult.kSuccess, PosixConditionBase.SIZE_MAX,
          { heap := st.heap,
            alertable_state_ := if is_alertable then false else st.alertable_state_ }),
         deliveries.map (signal_handler_kThreadUserCallback
           (if is_alertable then true else st.alertable_state_))) ∧
    (timeout ≠ milliseconds_max →
      WaitMultiple t [] false is_alertable timeout deliveries st
        = (some (WaitResult.kTimeout, 0,
            { heap := st.heap,
              alertable_state_ := if is_alertable then false else st.alertable_state_ }),
           deliveries.map (signal_handler_kThreadUserCallback
             (if is_alertable then true else st.alertable_state_)))) := by
  have hall : ∀ hp : Nat → PosixConditionBase, PosixConditionBase.WaitMultiple t [] true timeout hp
      = some (WaitResult.kSuccess, PosixConditionBase.SIZE_MAX, hp) := fun _ => rfl
  have hany : ∀ hp : Nat → PosixConditionBase, timeout ≠ milliseconds_max →
      PosixConditionBase.WaitMultiple t [] false timeout hp
        = some (WaitResult.kTimeout, 0, hp) := by
    intro hp hfin
    simp [PosixConditionBase.WaitMultiple, hfin]
  refine ⟨hall heap, rfl, hany heap, ?_, ?_, ?_⟩
  · simp [PosixConditionBase.WaitMultiple]
  · obtain ⟨hp, flag⟩ := st
    cases is_alertable <;>
      simp only [WaitMultiple, WaitMultiple_conditions, hall, Bool.false_eq_true, if_false,
        if_true]
  · intro hfin
    obtain ⟨hp, flag⟩ := st
    cases is_alertable <;>
      simp only [WaitMultiple, WaitMultiple_conditions, hany _ hfin, Bool.false_eq_true,
        if_false, if_true]

theorem WaitMultiple_on_empty_list_witness :
    PosixConditionBase.WaitMultiple 7 [] false 10
        (fun _ => PosixConditionBase.event { signal_ := true, manual_reset_ := true })
      = some (WaitResult.kTimeout, 0,
          fun _ => PosixConditionBase.event { signal_ := true, manual_reset_ := true }) :=
  (WaitMultiple_on_empty_list 7 10
    (fun _ => PosixConditionBase.event { signal_ := true, manual_reset_ := true }) false []
    { heap := fun _ => PosixConditionBase.event { signal_ := true, manual_reset_ := true },
      alertable_state_ := false }).2.2.1 (by decide)

/-- Claim C30: for each of the four purposes `GetSystemSignalType` undoes
`GetSystemSignal`, and the `switch` of the shared handler runs the `case` of
that purpose; `GetSystemSignal` gives `SIGRTMIN` plus the ordinal `0`, `1`, `2`,
`3` of the purpose, so that different purposes have different signal numbers. -/
theorem signal_type_round_trip (SIGRTMIN : Int) :
    (∀ t : SignalType, t ≠ SignalType.k_Count →
      GetSystemSignalType SIGRTMIN (GetSystemSignal SIGRTMIN t) = some t ∧
      signal_handler_case SIGRTMIN (GetSystemSignal SIGRTMIN t) = some t) ∧
    (∀ t u : SignalType, t ≠ u → GetSystemSignal SIGRTMIN t ≠ GetSystemSignal SIGRTMIN u) ∧
    GetSystemSignal SIGRTMIN SignalType.kHighResolutionTimer = SIGRTMIN + 0 ∧
    GetSystemSignal SIGRTMIN SignalType.kTimer = SIGRTMIN + 1 ∧
    GetSystemSignal SIGRTMIN SignalType.kThreadSuspend = SIGRTMIN + 2 ∧
    GetSystemSignal SIGRTMIN SignalType.kThreadUserCallback = SIGRTMIN + 3 := by
  refine ⟨?_, ?_, rfl, rfl, rfl, rfl⟩
  · intro t ht
    cases t <;>
      simp [GetSystemSignalType, GetSystemSignal, signal_handler_case, SignalType.ofInt,
        SignalType.toInt] at ht ⊢
  · intro t u htu h
    apply htu
    unfold GetSystemSignal at h
    have h2 : t.toInt = u.toInt := by omega
    cases t <;> cases u <;> simp [SignalType.toInt] at h2 ⊢

theorem signal_type_round_trip_witness :
    GetSystemSignalType 34 (GetSystemSignal 34 SignalType.kThreadSuspend)
      = some SignalType.kThreadSuspend ∧
    signal_handler_case 34 (GetSystemSignal 34 SignalType.kThreadSuspend)
      = some SignalType.kThreadSuspend ∧
    GetSystemSignal 34 SignalType.kTimer ≠ GetSystemSignal 34 SignalType.kThreadSuspend :=
  ⟨((signal_type_round_trip 34).1 SignalType.kThreadSuspend (by decide)).1,
    ((signal_type_round_trip 34).1 SignalType.kThreadSuspend (by decide)).2,
    (signal_type_round_trip 34).2.1 SignalType.kTimer SignalType.kThreadSuspend (by decide)⟩

end xe.threading

namespace xe.filesystem

/-! ## Properties of the file system functions -/

/-- Claim C29, evaluated on the code: `CreateFolder` returns the `int` of
`mkdir` as a `bool`, so it is `false` when `mkdir` succeeded (returned `0`) and
`true` when `mkdir` failed (returned `-1`). -/
theorem CreateFolder_returns_true_on_failure :
    CreateFolder 0 = false ∧ CreateFolder (-1) = true := by
  decide

/-- Claim C26, evaluated on the code at `tv_sec = 0`, `tv_nsec = 999999999`:
the nanoseconds are added undivided to a count of 100-nanosecond intervals, so
the result is `116444736999999999`, not
`(0 + 11644473600) * 10^7 + 999999999 / 100 = 116444736009999999`;
`Clock::QueryHostSystemTime` on the same instant, `999999` microseconds, gives
`116444736009999990`. -/
theorem convertUnixtimeToWinFiletime_adds_nanoseconds :
    convertUnixtimeToWinFiletime 0 999999999 = 116444736999999999 ∧
    (0 + 11644473600) * 10 ^ 7 + 999999999 / 100 = 116444736009999999 ∧
    (369 * 365 + 89) * 86400 = 11644473600 ∧
    Clock.QueryHostSystemTime 0 999999 = 116444736009999990 := by
  decide

end xe.filesystem

namespace xe.vfs

/-! ## Properties of the STFS functions -/

/-- Claim C25, evaluated on the code at the FAT date of 2000-01-01 (year field
`20`, month `1`, day `1`, that is `20 * 512 + 1 * 32 + 1 = 10273`) and time
`0`: the month, which FAT counts from `1`, is given to `timegm` as `tm_mon`,
which counts from `0`, so the result is the instant 2000-02-01 00:00:00 and not
2000-01-01 00:00:00. -/
theorem decode_fat_timestamp_is_one_month_late :
    decode_fat_timestamp 10273 0 = 125938368000000000 ∧
    filetimeOfCivil 2000 1 1 0 0 0 = 125911584000000000 ∧
    filetimeOfCivil 2000 2 1 0 0 0 = 125938368000000000 ∧
    timegm 100 0 1 0 0 0 = 946684800 := by
  decide

/-- The value of `STFSDataBlockToBackingBlock` in the 24-bit block range, for
one or two blocks per hash table: no `uint64_t` operation wraps. -/
theorem STFSDataBlockToBackingBlock_eq (p b : Nat) (hp : p = 1 ∨ p = 2) (hb : b < 2 ^ 24) :
    STFSDataBlockToBackingBlock p b
      = b + p * (b / 170 + 1)
          + (if 170 ≤ b then p * (b / 28900 + 1) else 0)
          + (if 28900 ≤ b then p * (b / 4913000 + 1) else 0) := by
  have h24 : (2 : Nat) ^ 24 = 16777216 := by norm_num
  have h64 : (2 : Nat) ^ 64 = 18446744073709551616 := by norm_num
  rw [h24] at hb
  simp only [STFSDataBlockToBackingBlock, STFSDataBlockToBackingBlock_loop,
    kSTFSDataBlocksPerHashLevel, h64]
  rcases hp with rfl | rfl <;> split_ifs <;> omega

/-- Claim C28: for one or two blocks per hash table and data blocks `a`, `b` in
the 24-bit range, `STFSDataBlockToBackingBlock` is strictly increasing and so
injective, the backing block of `b` is at least `b + blocks_per_hash_table`,
and the file offsets of different data blocks differ (`header_offset` is the
rounded header size, a 32-bit value). -/
theorem STFSDataBlockToBackingBlock_strictly_increasing (p a b : Nat)
    (hp : p = 1 ∨ p = 2) (ha : a < 2 ^ 24) (hb : b < 2 ^ 24) :
    (a < b → STFSDataBlockToBackingBlock p a < STFSDataBlockToBackingBlock p b) ∧
    (STFSDataBlockToBackingBlock p a = STFSDataBlockToBackingBlock p b → a = b) ∧
    b + p ≤ STFSDataBlockToBackingBlock p b ∧
    (∀ header_offset, header_offset < 2 ^ 32 →
      (a < b → STFSDataBlockToOffset p header_offset a
        < STFSDataBlockToOffset p header_offset b) ∧
      (STFSDataBlockToOffset p header_offset a = STFSDataBlockToOffset p header_offset b →
        a = b)) := by
  have h24 : (2 : Nat) ^ 24 = 16777216 := by norm_num
  have h32 : (2 : Nat) ^ 32 = 4294967296 := by norm_num
  have h64 : (2 : Nat) ^ 64 = 18446744073709551616 := by norm_num
  have hmono : ∀ x y : Nat, x < 2 ^ 24 → y < 2 ^ 24 → x < y →
      STFSDataBlockToBackingBlock p x < STFSDataBlockToBackingBlock p y := by
    intro x y hx hy hxy
    rw [STFSDataBlockToBackingBlock_eq p x hp hx, STFSDataBlockToBackingBlock_eq p y hp hy]
    rw [h24] at hx hy
    rcases hp with rfl | rfl <;> split_ifs <;> omega
  have hbound : ∀ x : Nat, x < 2 ^ 24 →
      x + p ≤ STFSDataBlockToBackingBlock p x ∧ STFSDataBlockToBackingBlock p x < 2 ^ 26 := by
    intro x hx
    rw [STFSDataBlockToBackingBlock_eq p x hp hx]
    rw [h24] at hx
    rcases hp with rfl | rfl <;> split_ifs <;> omega
  have hinj : ∀ x y : Nat, x < 2 ^ 24 → y < 2 ^ 24 →
      STFSDataBlockToBackingBlock p x = STFSDataBlockToBackingBlock p y → x = y := by
    intro x y hx hy h
    rcases Nat.lt_trichotomy x y with hlt | heq | hgt
    · exact absurd h (Nat.ne_of_lt (hmono x y hx hy hlt))
    · exact heq
    · exact absurd h.symm (Nat.ne_of_lt (hmono y x hy hx hgt))
  have hoff : ∀ (header_offset x : Nat), header_offset < 2 ^ 32 → x < 2 ^ 24 →
      STFSDataBlockToOffset p header_offset x
        = header_offset + STFSDataBlockToBackingBlock p x * 4096 := by
    intro header_offset x hh hx
    have hbx := (hbound x hx).2
    have h26 : (2 : Nat) ^ 26 = 67108864 := by norm_num
    rw [h26] at hbx
    rw [h32] at hh
    simp only [STFSDataBlockToOffset, STFSBackingBlockToOffset, h64]
    omega
  refine ⟨hmono a b ha hb, hinj a b ha hb, (hbound b hb).1, ?_⟩
  intro header_offset hh
  rw [hoff header_offset a hh ha, hoff header_offset b hh hb]
  constructor
  · intro hab
    have := hmono a b ha hb hab
    omega
  · intro h
    apply hinj a b ha hb
    omega

theorem STFSDataBlockToBackingBlock_strictly_increasing_witness :
    STFSDataBlockToBackingBlock 2 169 < STFSDataBlockToBackingBlock 2 170 ∧
    170 + 2 ≤ STFSDataBlockToBackingBlock 2 170 :=
  ⟨(STFSDataBlockToBackingBlock_strictly_increasing 2 169 170 (Or.inr rfl) (by norm_num)
      (by norm_num)).1 (by decide),
    (STFSDataBlockToBackingBlock_strictly_increasing 2 169 170 (Or.inr rfl) (by norm_num)
      (by norm_num)).2.2.1⟩

end xe.vfs
